import Mathlib

/-!
# Verification of the `mecanica_kiosko` checkpointed ingestion pipeline

Shallow embedding of `src/procesar_tiendas.py` (class `TiendaProcessor`).

Modelling conventions, used throughout:

* Python/JSON values are modelled by the inductive `JVal`; a Python `dict`
  originating from JSON is an insertion-ordered association list (`PyDict`),
  with `dict.get(k)` conflating a missing key and a stored `None`/`null`
  (both give `JVal.null`), exactly as the script's `.get(...)`-with-default
  accesses observe them.
* Python `float` values are modelled as exact rationals (`ℚ`).  The script
  only parses decimal literals out of KML text and multiplies/divides small
  decimal constants, so the IEEE-double rounding of CPython is abstracted to
  exact arithmetic; non-finite floats never arise in the modelled paths.
* Exceptions that a modelled function can raise to ITS CALLER are made
  explicit with `Option`, `none` standing for "raises".  Exception paths the
  source catches internally are folded into the returned value.
* Filesystem paths are strings over `/`-separated segments; the small path
  algebra (`splitSegs`, `joinSegs`, `pathParentStr`, `relativeSegs?`) models
  the `pathlib.Path` operations (`parent`, `relative_to`, `str`) the script
  uses.
-/

namespace Kiosko

/-- A JSON value as produced by Python's `json.loads` (and held in the
script's dictionaries).  Numbers are modelled as exact rationals; object
fields are an insertion-ordered association list (CPython dict order). -/
inductive JVal where
  | null : JVal
  | bool : Bool → JVal
  | num : ℚ → JVal
  | str : String → JVal
  | arr : List JVal → JVal
  | obj : List (String × JVal) → JVal
deriving Repr

/-- A Python dictionary holding JSON-shaped data: an insertion-ordered
association list from string keys to values. -/
abbrev PyDict := List (String × JVal)

/-- Python `d.get(k)` on a JSON-shaped dict (default `None`): the first binding of `k`,
or `null` when the key is absent. -/
def dictGet : PyDict → String → JVal
  | [], _ => .null
  | (k', v) :: r, k => if k' = k then v else dictGet r k

/-- Python `d[k] = v` on a dict: replace the binding in place if the key is
present (keeping its position), otherwise append it. -/
def setKey : PyDict → String → JVal → PyDict
  | [], k, v => [(k, v)]
  | (k', v') :: r, k, v => if k' = k then (k, v) :: r else (k', v') :: setKey r k v

/-- Python truthiness (`if x:` / `x or y`) restricted to JSON-shaped values:
`None`, `False`, `0`, `""`, `[]` and `{}` are falsy, everything else truthy. -/
def pyTruthy : JVal → Bool
  | .null => false
  | .bool b => b
  | .num q => q ≠ 0
  | .str s => s ≠ ""
  | .arr l => !l.isEmpty
  | .obj f => !f.isEmpty

/-! ## A model of `json.loads` / `json.dumps`

The script calls `json.loads` on the model reply (line 384 and the repair
pass at line 418) and `json.dumps` on the alternatives list (line 620).
The parser below implements the JSON grammar as accepted by Python's strict
decoder: the whole input must be consumed (trailing data is an error, as in
`json.loads('{"a":1}}')`), raw control characters inside strings are
rejected, duplicate object keys keep the last occurrence.  Deliberate model
restrictions (none reachable from the claims): the non-standard `NaN` /
`Infinity` literals are not accepted, and `\uXXXX` surrogate pairs are
decoded code-unit-wise. -/

/-- JSON whitespace skipping (space, tab, newline, carriage return). -/
def skipWs : List Char → List Char
  | c :: r => if c = ' ' ∨ c = '\t' ∨ c = '\n' ∨ c = '\r' then skipWs r else c :: r
  | [] => []

/-- Decimal digit run → value accumulation. -/
def digitsVal (cs : List Char) : Nat :=
  cs.foldl (fun a c => a * 10 + (c.toNat - 48)) 0

/-- Hexadecimal digit value (for `\uXXXX` escapes). -/
def hexVal (c : Char) : Option Nat :=
  if '0' ≤ c ∧ c ≤ '9' then some (c.toNat - 48)
  else if 'a' ≤ c ∧ c ≤ 'f' then some (c.toNat - 87)
  else if 'A' ≤ c ∧ c ≤ 'F' then some (c.toNat - 55)
  else none

/-- Body of a JSON string literal (after the opening quote), accumulating
characters until the closing quote; escape sequences per RFC 8259, raw
control characters rejected (Python `strict=True`). -/
def parseStringAux : List Char → List Char → Option (String × List Char)
  | _, [] => none
  | acc, '"' :: r => some (String.mk acc.reverse, r)
  | acc, '\\' :: '"' :: r => parseStringAux ('"' :: acc) r
  | acc, '\\' :: '\\' :: r => parseStringAux ('\\' :: acc) r
  | acc, '\\' :: '/' :: r => parseStringAux ('/' :: acc) r
  | acc, '\\' :: 'b' :: r => parseStringAux ('\x08' :: acc) r
  | acc, '\\' :: 'f' :: r => parseStringAux ('\x0c' :: acc) r
  | acc, '\\' :: 'n' :: r => parseStringAux ('\n' :: acc) r
  | acc, '\\' :: 'r' :: r => parseStringAux ('\r' :: acc) r
  | acc, '\\' :: 't' :: r => parseStringAux ('\t' :: acc) r
  | acc, '\\' :: 'u' :: h1 :: h2 :: h3 :: h4 :: r =>
    match hexVal h1, hexVal h2, hexVal h3, hexVal h4 with
    | some a, some b, some c, some d =>
      parseStringAux (Char.ofNat (((a * 16 + b) * 16 + c) * 16 + d) :: acc) r
    | _, _, _, _ => none
  | _, '\\' :: _ => none
  | acc, c :: r => if c.toNat < 32 then none else parseStringAux (c :: acc) r

/-- A JSON number: `-? (0 | [1-9][0-9]*) (. [0-9]+)? ([eE][+-]?[0-9]+)?`,
returned as an exact rational together with the unconsumed input. -/
def parseNum (cs : List Char) : Option (ℚ × List Char) :=
  let (sgn, cs₁) : ℚ × List Char :=
    match cs with
    | '-' :: r => (-1, r)
    | r => (1, r)
  let intDigits := cs₁.takeWhile Char.isDigit
  let rest₁ := cs₁.dropWhile Char.isDigit
  if intDigits = [] then none
  else if 2 ≤ intDigits.length ∧ intDigits.headI = '0' then none
  else
    let intPart : ℚ := (digitsVal intDigits : ℚ)
    let (fracPart, rest₂) : ℚ × List Char :=
      match rest₁ with
      | '.' :: r =>
        let fd := r.takeWhile Char.isDigit
        if fd = [] then ((-1 : ℚ), rest₁)
        else ((digitsVal fd : ℚ) / (10 : ℚ) ^ fd.length, r.dropWhile Char.isDigit)
      | _ => (0, rest₁)
    if fracPart < 0 then none
    else
      match rest₂ with
      | e :: r =>
        if e = 'e' ∨ e = 'E' then
          let (esgn, r₁) : Int × List Char :=
            match r with
            | '+' :: r' => (1, r')
            | '-' :: r' => (-1, r')
            | r' => (1, r')
          let ed := r₁.takeWhile Char.isDigit
          if ed = [] then none
          else some (sgn * (intPart + fracPart) * (10 : ℚ) ^ (esgn * (digitsVal ed : Int)),
                     r₁.dropWhile Char.isDigit)
        else some (sgn * (intPart + fracPart), rest₂)
      | [] => some (sgn * (intPart + fracPart), [])

/-- Insert a parsed object field in front of later fields of the same
object, letting a later duplicate key win (CPython keeps the last value for
a duplicated key; key position is irrelevant to the script's key-based
reads, so the earlier binding is simply dropped). -/
def insertField (k : String) (v : JVal) (later : PyDict) : PyDict :=
  if (later.lookup k).isSome then later else (k, v) :: later

/-- What the fuelled JSON parser is currently reading: a value, the
element list of an array (after its `[`), or the field list of an object
(after its `{`). -/
inductive PMode where
  | val : PMode
  | elems : PMode
  | fields : PMode

/-- Intermediate parse result for the corresponding `PMode`. -/
inductive PRes where
  | v : JVal → PRes
  | l : List JVal → PRes
  | f : PyDict → PRes

/-- The JSON grammar, fuelled (the fuel bounds the recursion depth;
`jsonLoads` supplies enough for its input length).  `.elems`/`.fields`
start right after the opening bracket with whitespace already skipped;
duplicate object keys are resolved last-wins (`insertField`), as CPython's
dict construction does. -/
def parseJ : Nat → PMode → List Char → Option (PRes × List Char)
  | 0, _, _ => none
  | Nat.succ fuel, .val, cs =>
    match skipWs cs with
    | [] => none
    | 'n' :: 'u' :: 'l' :: 'l' :: r => some (.v .null, r)
    | 't' :: 'r' :: 'u' :: 'e' :: r => some (.v (.bool true), r)
    | 'f' :: 'a' :: 'l' :: 's' :: 'e' :: r => some (.v (.bool false), r)
    | '"' :: r =>
      match parseStringAux [] r with
      | some (s, r') => some (.v (.str s), r')
      | none => none
    | '[' :: r =>
      match parseJ fuel .elems (skipWs r) with
      | some (.l xs, r') => some (.v (.arr xs), r')
      | _ => none
    | '{' :: r =>
      match parseJ fuel .fields (skipWs r) with
      | some (.f fs, r') => some (.v (.obj fs), r')
      | _ => none
    | cs' =>
      match parseNum cs' with
      | some (q, r) => some (.v (.num q), r)
      | none => none
  | Nat.succ fuel, .elems, cs =>
    match cs with
    | ']' :: r => some (.l [], r)
    | _ =>
      match parseJ fuel .val cs with
      | some (.v x, r) =>
        match skipWs r with
        | ',' :: r' =>
          match parseJ fuel .elems (skipWs r') with
          | some (.l [], _) => none
          | some (.l xs, r'') => some (.l (x :: xs), r'')
          | _ => none
        | ']' :: r' => some (.l [x], r')
        | _ => none
      | _ => none
  | Nat.succ fuel, .fields, cs =>
    match cs with
    | '}' :: r => some (.f [], r)
    | '"' :: r =>
      match parseStringAux [] r with
      | some (k, r₁) =>
        match skipWs r₁ with
        | ':' :: r₂ =>
          match parseJ fuel .val r₂ with
          | some (.v x, r₃) =>
            match skipWs r₃ with
            | ',' :: r₄ =>
              match parseJ fuel .fields (skipWs r₄) with
              | some (.f [], _) => none
              | some (.f fs, r₅) => some (.f (insertField k x fs), r₅)
              | _ => none
            | '}' :: r₄ => some (.f [(k, x)], r₄)
            | _ => none
          | _ => none
        | _ => none
      | none => none
    | _ => none

/-- Model of `json.loads`: parse a complete JSON document; trailing non-whitespace
input is an error ("Extra data"). -/
def jsonLoads (s : String) : Option JVal :=
  match parseJ (2 * s.length + 4) .val s.data with
  | some (.v x, rest) => if skipWs rest = [] then some x else none
  | _ => none

/-- String-literal escaping for `json.dumps(..., ensure_ascii=False)`:
only the quote, the backslash and control characters are escaped. -/
def jsonEscapeChar (c : Char) : String :=
  if c = '"' then "\\\""
  else if c = '\\' then "\\\\"
  else if c = '\n' then "\\n"
  else if c = '\r' then "\\r"
  else if c = '\t' then "\\t"
  else if c.toNat < 32 then "\\u00" ++ String.mk [if c.toNat / 16 = 0 then '0' else '1', (Nat.digitChar (c.toNat % 16))]
  else String.mk [c]

mutual

/-- Model of `json.dumps(v, ensure_ascii=False)` with the default separators.
The exact decimal rendering of non-integral numbers is a CPython
float-repr detail; the model renders the exact rational instead
(no claim inspects the serialized text). -/
def jdumps : JVal → String
  | .null => "null"
  | .bool true => "true"
  | .bool false => "false"
  | .num q => if q.den = 1 then toString q.num else toString q.num ++ "/" ++ toString q.den
  | .str s => "\"" ++ String.join (s.data.map jsonEscapeChar) ++ "\""
  | .arr l => "[" ++ jdumpsElems l ++ "]"
  | .obj f => "\x7b" ++ jdumpsFields f ++ "\x7d"

/-- Comma-separated serialization of array elements. -/
def jdumpsElems : List JVal → String
  | [] => ""
  | [v] => jdumps v
  | v :: r => jdumps v ++ ", " ++ jdumpsElems r

/-- Comma-separated serialization of object fields. -/
def jdumpsFields : List (String × JVal) → String
  | [] => ""
  | [(k, v)] => "\"" ++ String.join (k.data.map jsonEscapeChar) ++ "\": " ++ jdumps v
  | (k, v) :: r => "\"" ++ String.join (k.data.map jsonEscapeChar) ++ "\": " ++ jdumps v ++ ", " ++ jdumpsFields r

end

/-! ## Path algebra

The script manipulates paths through `pathlib`: `Path(s).parent`,
`Path(a).relative_to(b)` and `str(...)`.  Paths are modelled as their
`/`-separated segment decomposition. -/

/-- Split a character stream at every separator recognized by `p`,
keeping empty pieces (the behaviour of Python's `str.split(sep)`). -/
def splitOnPred (p : Char → Bool) : List Char → List (List Char)
  | [] => [[]]
  | c :: r =>
    if p c then [] :: splitOnPred p r
    else
      match splitOnPred p r with
      | h :: t => (c :: h) :: t
      | [] => [[c]]

/-- Segment decomposition of a path string at `/` separators. -/
def splitSegs (s : String) : List String :=
  (splitOnPred (· = '/') s.data).map String.mk

/-- Join segments back into a character stream with `/` separators. -/
def joinSlash : List (List Char) → List Char
  | [] => []
  | [s] => s
  | s :: r => s ++ '/' :: joinSlash r

/-- Join path segments into a path string (`"/".join`). -/
def joinSegs (l : List String) : String :=
  String.mk (joinSlash (l.map String.data))

/-- Model of `Path(s).parent` on segments: drop the last segment; a single-segment
path degrades to `"."` as `pathlib` does. -/
def parentSegs (l : List String) : List String :=
  match l.dropLast with
  | [] => ["."]
  | l' => l'

/-- Model of `str(Path(s).parent)` for a path string. -/
def pathParentStr (s : String) : String :=
  joinSegs (parentSegs (splitSegs s))

/-- Model of `Path(p).relative_to(base)` on segment lists: the remainder when `base`
is a prefix of `p`, otherwise `none` (Python raises `ValueError`). -/
def relativeSegs? (p base : List String) : Option (List String) :=
  if base.isPrefixOf p then some (p.drop base.length) else none

/-! ## Python `float(...)` over decimal text

`extraer_coordenadas_kmz` converts coordinate tokens with `float(s)`.
The model parses an optionally signed decimal literal with optional
fraction and exponent into an exact rational (`none` = `ValueError`).
CPython also accepts `inf`/`nan` spellings and `_` digit separators;
those never denote coordinates and are not modelled. -/

/-- Python `str.strip()` (leading/trailing whitespace removal). -/
def pyStrip (s : String) : String :=
  String.mk ((s.data.dropWhile Char.isWhitespace).reverse.dropWhile Char.isWhitespace |>.reverse)

/-- Python `str.split()` with no argument: split on whitespace runs,
discarding empty pieces. -/
def pySplitWs (s : String) : List String :=
  ((splitOnPred Char.isWhitespace s.data).filter (· ≠ [])).map String.mk

/-- Python `str.split(',')`: split at every comma, keeping empty pieces. -/
def pySplitComma (s : String) : List String :=
  (splitOnPred (· = ',') s.data).map String.mk

/-- Model of `float(s)` for a finite decimal literal, as an exact rational:
optional sign, decimal digits with an optional fractional part (at least
one digit overall), optional exponent; the whole (stripped) string must be
consumed, otherwise `none` (Python raises `ValueError`). -/
def pyFloat? (s : String) : Option ℚ :=
  let cs := (pyStrip s).data
  let (sgn, cs₁) : ℚ × List Char :=
    match cs with
    | '+' :: r => (1, r)
    | '-' :: r => (-1, r)
    | r => (1, r)
  let intDigits := cs₁.takeWhile Char.isDigit
  let rest₁ := cs₁.dropWhile Char.isDigit
  let (fracDigits, rest₂) : List Char × List Char :=
    match rest₁ with
    | '.' :: r => (r.takeWhile Char.isDigit, r.dropWhile Char.isDigit)
    | _ => ([], rest₁)
  if intDigits = [] ∧ fracDigits = [] then none
  else
    let mant : ℚ := sgn * ((digitsVal intDigits : ℚ) + (digitsVal fracDigits : ℚ) / (10 : ℚ) ^ fracDigits.length)
    match rest₂ with
    | [] => some mant
    | e :: r =>
      if e = 'e' ∨ e = 'E' then
        let (esgn, r₁) : Int × List Char :=
          match r with
          | '+' :: r' => (1, r')
          | '-' :: r' => (-1, r')
          | r' => (1, r')
        let ed := r₁.takeWhile Char.isDigit
        if ed = [] ∨ r₁.dropWhile Char.isDigit ≠ [] then none
        else some (mant * (10 : ℚ) ^ (esgn * (digitsVal ed : Int)))
      else none

/-! ## Coordinate Extractor — `TiendaProcessor.extraer_coordenadas_kmz`

The function's interaction with the outside world (the zip archive and the
XML parse of the first KML member) is represented by `KmzInput`:
`badArchive` covers every exception raised while opening/reading the
archive (`BadZipFile`, a missing file, I/O errors — all caught by the
`except` clauses); `archive names kml` gives the member-name list returned
by `namelist()` and the outcome of `ET.fromstring` on the first KML member;
`doc elems` lists, in document order, the text contents of the
`coordinates` elements located by the namespace-aware search (the
dynamic-namespace `findall` with its no-namespace fallback determines
WHICH elements appear in this list; the per-element parsing below is what
the claims are about). -/

/-- Result of `ET.fromstring` on the selected KML member. -/
inductive KmlOutcome where
  | parseError : KmlOutcome
  | doc : List String → KmlOutcome

/-- Observable input of `extraer_coordenadas_kmz`. -/
inductive KmzInput where
  | badArchive : KmzInput
  | archive : List String → KmlOutcome → KmzInput

/-- Case-insensitive `.kml` extension match (`f.lower().endswith('.kml')`),
expressed over the character list. -/
def isKmlName (n : String) : Bool :=
  List.isSuffixOf ['.', 'k', 'm', 'l'] (n.data.map Char.toLower)

/-- Processing of one `coordinates` element body (lines 262-275): skip an
empty/whitespace-only text; take the FIRST whitespace-separated token;
split it on commas; with at least two components, `float` the first two as
(longitude, latitude) and return `(lat, lon)`; any failure yields `none`
(the loop then continues with the next element). -/
def elemCoord (text : String) : Option (ℚ × ℚ) :=
  let s := pyStrip text
  if s = "" then none
  else
    match pySplitWs s with
    | [] => none
    | tok :: _ =>
      match pySplitComma tok with
      | p0 :: p1 :: _ =>
        match pyFloat? (pyStrip p0), pyFloat? (pyStrip p1) with
        | some lon, some lat => some (lat, lon)
        | _, _ => none
      | _ => none

/-- The `for coord_elem in all_coords` loop: first element that yields a
pair wins; exhaustion gives `(None, None)`. -/
def extraerCoordsElems : List String → Option (ℚ × ℚ)
  | [] => none
  | t :: rest =>
    match elemCoord t with
    | some p => some p
    | none => extraerCoordsElems rest

/-- Model of `extraer_coordenadas_kmz`, returning `some (lat, lon)` or `none` for
the `(None, None)` pair.  Every failure path of the source returns
`(None, None)` after logging; no exception escapes (the enclosing
`try/except` catches `BadZipFile`, `ET.ParseError` and `Exception`). -/
def extraerCoordenadasKmz : KmzInput → Option (ℚ × ℚ)
  | .badArchive => none
  | .archive names kml =>
    if names.filter isKmlName = [] then none
    else
      match kml with
      | .parseError => none
      | .doc elems => extraerCoordsElems elems

/-! ## Identity Resolver — `TiendaProcessor.parsear_nombre_tienda`

`re.match(r'^\d+\)\s*(\d+)\s+(.+)$', nombre_carpeta)` is modelled by a
character-level scan.  The digit/whitespace character classes are disjoint,
so the greedy `\d+`/`\s*` runs are deterministic; the only backtracking the
pattern can perform is `\s+(.+)$` giving its last whitespace character to
`(.+)` when nothing follows the run.  (The Python classes `\s`/`.` also
involve `\f`, `\v`, the no-newline rule of `.` and Unicode categories;
folder names of the modelled tree contain none of those characters.) -/

/-- The anchored store-folder pattern `^\d+\)\s*(\d+)\s+(.+)$`, returning
the two capture groups on a match. -/
def matchStorePattern (s : String) : Option (String × String) :=
  let cs := s.data
  let d1 := cs.takeWhile Char.isDigit
  let r1 := cs.dropWhile Char.isDigit
  if d1 = [] then none
  else if r1.head? ≠ some ')' then none
  else
    let r3 := r1.tail.dropWhile Char.isWhitespace
    let idDigits := r3.takeWhile Char.isDigit
    let r4 := r3.dropWhile Char.isDigit
    if idDigits = [] then none
    else
      let ws := r4.takeWhile Char.isWhitespace
      let rest := r4.dropWhile Char.isWhitespace
      if ws = [] then none
      else if rest ≠ [] then some (String.mk idDigits, String.mk rest)
      else if 2 ≤ ws.length then some (String.mk idDigits, String.mk [ws.getLastD ' '])
      else none

/-- Model of `re.findall(r'\d+', s)`: the maximal decimal-digit runs of `s`. -/
def findAllNumbers (s : String) : List String :=
  ((splitOnPred (fun c => !c.isDigit) s.data).filter (· ≠ [])).map String.mk

/-- Model of `parsear_nombre_tienda`: pattern match first, then the
integer-substring fallback, then the `("N/A", raw name)` sentinel. -/
def parsearNombreTienda (s : String) : String × String :=
  match matchStorePattern s with
  | some (id, nm) => (id, pyStrip nm)
  | none =>
    match findAllNumbers s with
    | _ :: n2 :: _ => (n2, s)
    | [n1] => (n1, s)
    | [] => ("N/A", s)

/-! ## Document Extractor — `TiendaProcessor.analizar_pdf_con_ia`

The external service call (lines 355-374) is represented per attempt by a
`CallOutcome`: `response content p c` is a completed call returning reply
text `content` with `prompt_tokens = p` and `completion_tokens = c`;
`rateLimit` is a raised `RateLimitError`; `apiError msg` a raised
`APIError` with message `msg` (`str(e)`); `otherError msg` any other
exception (`except Exception`).  The payload construction (base64 vs the
>30 MB text fallback) only shapes the request and is irrelevant to the
reply processing the claims are about. -/

/-- Cost constant `COSTO_INPUT_1M` (USD per 1M prompt tokens, line 60). -/
def COSTO_INPUT_1M : ℚ := 1.75

/-- Cost constant `COSTO_OUTPUT_1M` (USD per 1M completion tokens, line 61). -/
def COSTO_OUTPUT_1M : ℚ := 14.00

/-- The `costo_llamada` computation (lines 380-381): derived per-call cost in USD. -/
def costoLlamada (prompt completion : Nat) : ℚ :=
  (prompt : ℚ) * COSTO_INPUT_1M / 1000000 + (completion : ℚ) * COSTO_OUTPUT_1M / 1000000

/-- The `_usage` record attached to a successful per-call result
(lines 385-390 and 419-424). -/
def usageDict (prompt completion : Nat) : JVal :=
  .obj [("prompt_tokens", .num prompt), ("completion_tokens", .num completion),
        ("cost_usd", .num (costoLlamada prompt completion)), ("model", .str "gpt-5.2")]

/-- The `resultado_vacio` dictionary (lines 301-309). -/
def resultadoVacio : PyDict :=
  [("identificacion_proyecto", .null), ("exploracion_campo", .null),
   ("caracterizacion_suelo", .null), ("analisis_estructural", .null),
   ("recomendaciones_cimentacion", .null), ("observaciones_criticas", .null),
   ("error", .null)]

/-- The `resultado_vacio` dictionary with its `error` field assigned. -/
def errorResult (msg : String) : PyDict :=
  setKey resultadoVacio "error" (.str msg)

/-- The error message of line 429: a snippet of the raw reply truncated to
its first 100 characters (`content[:100]`). -/
def invalidJsonMsg (content : String) : String :=
  "Respuesta inválida de la IA (JSON Error). Raw: " ++ String.mk (content.data.take 100) ++ "..."

/-- Index of the first character satisfying `p`. -/
def firstIdxOf (p : Char → Bool) : List Char → Option Nat
  | [] => none
  | c :: r => if p c then some 0 else (firstIdxOf p r).map (· + 1)

/-- Model of `re.search(r'(\{.*\})', content, re.DOTALL)` (line 416).  With DOTALL
and a greedy `.*`, the leftmost-longest match runs from the FIRST `{` of
the content to the LAST `}` (located as the first `}` of the reversal),
provided that `}` lies strictly after that `{`; otherwise there is no
match. -/
def pyRepairCapture (content : String) : Option String :=
  let cs := content.data
  match firstIdxOf (· = '{') cs, firstIdxOf (· = '}') cs.reverse with
  | some i, some jr =>
    let j := cs.length - 1 - jr
    if i < j then some (String.mk ((cs.drop i).take (j - i + 1))) else none
  | _, _ => none

/-- Modelled from the spec: "extracts the first balanced brace-delimited
substring".  Depth-counting scan from the first `{` of the content up to
its matching `}`.  This definition follows the SPEC's words and exists to
be compared with `pyRepairCapture`, the definition taken from the source. -/
def balancedScan : List Char → Nat → List Char → Option String
  | [], _, _ => none
  | c :: r, depth, acc =>
    if c = '{' then balancedScan r (depth + 1) (c :: acc)
    else if c = '}' then
      if depth = 1 then some (String.mk (c :: acc).reverse)
      else if depth = 0 then none
      else balancedScan r (depth - 1) (c :: acc)
    else balancedScan r depth (c :: acc)

/-- Modelled from the spec: the first balanced brace-delimited substring of
the content (see `balancedScan`). -/
def firstBalancedBrace (content : String) : Option String :=
  balancedScan (content.data.dropWhile (· ≠ '{')) 0 []

/-- Stand-in for the interpreter message of the `TypeError` raised by
`resultado["_usage"] = ...` when `json.loads` returned a non-object
(caught by `except Exception`, line 432; the exact CPython text is not
modelled and no claim depends on it). -/
def typeErrorMsg : String := "TypeError: resultado is not a dict"

/-- The `except json.JSONDecodeError` handler (lines 408-430): one repair
pass over the raw content, else the truncated-snippet error result.  The
inner bare `except:` swallows both a failed re-parse and a `TypeError`
from attaching `_usage` to a non-object, so any non-object outcome of the
re-parse degrades to the error result. -/
def repairResult (content : String) (p c : Nat) : PyDict :=
  if content ≠ "" ∧ '{' ∈ content.data then
    match pyRepairCapture content with
    | some cap =>
      match jsonLoads cap with
      | some (.obj f) => setKey f "_usage" (usageDict p c)
      | _ => errorResult (invalidJsonMsg content)
    | none => errorResult (invalidJsonMsg content)
  else errorResult (invalidJsonMsg content)

/-- Reply processing of a completed call (lines 373-393 plus the
JSON-decode handler): parse the content, attach `_usage` on success,
repair on decode failure. -/
def responseResult (content : String) (p c : Nat) : PyDict :=
  match jsonLoads content with
  | some (.obj f) => setKey f "_usage" (usageDict p c)
  | some _ => errorResult typeErrorMsg
  | none => repairResult content p c

/-- Per-attempt outcome of the external service call. -/
inductive CallOutcome where
  | response : String → Nat → Nat → CallOutcome
  | rateLimit : CallOutcome
  | apiError : String → CallOutcome
  | otherError : String → CallOutcome

/-- Observable effects of one `analizar_pdf_con_ia` call: the returned
dictionary, the backoff sleeps performed (seconds, in order), and the
increments this call applied to the process-wide running totals
`self.total_input_tokens` / `self.total_output_tokens` / `self.total_cost`
(lines 377-382). -/
structure AnalyzeOut where
  result : PyDict
  sleeps : List Nat
  addedInputTokens : Nat
  addedOutputTokens : Nat
  addedCost : ℚ

/-- The `for intento in range(max_retries)` loop (lines 314-438), written
over the explicit index list `List.range maxRetries`; the element in hand
is `intento` and an empty remainder marks the final attempt
(`intento == max_retries - 1`).  Falling off the list is the post-loop
terminal error (lines 437-438). -/
def analizarLoop (outcomes : Nat → CallOutcome) : List Nat → AnalyzeOut
  | [] => ⟨errorResult "Máximo de reintentos alcanzado", [], 0, 0, 0⟩
  | intento :: restIdx =>
    match outcomes intento with
    | .response content p c =>
      ⟨responseResult content p c, [], p, c, costoLlamada p c⟩
    | .rateLimit =>
      let o := analizarLoop outcomes restIdx
      ⟨o.result, (intento + 1) * 30 :: o.sleeps, o.addedInputTokens, o.addedOutputTokens, o.addedCost⟩
    | .apiError msg =>
      match restIdx with
      | [] => ⟨errorResult msg, [], 0, 0, 0⟩
      | _ :: _ =>
        let o := analizarLoop outcomes restIdx
        ⟨o.result, 5 :: o.sleeps, o.addedInputTokens, o.addedOutputTokens, o.addedCost⟩
    | .otherError msg => ⟨errorResult msg, [], 0, 0, 0⟩

/-- Model of `analizar_pdf_con_ia(pdf_path, max_retries)` as a function of the
per-attempt service outcomes. -/
def analizarPdfConIa (outcomes : Nat → CallOutcome) (maxRetries : Nat) : AnalyzeOut :=
  analizarLoop outcomes (List.range maxRetries)

/-! ## Result Aggregator — `TiendaProcessor._construir_resultado` -/

/-- Python `x or {}` followed by `.get` accesses (lines 609-617): a falsy value
becomes the empty mapping; a truthy mapping is kept; a truthy non-mapping
would make the subsequent `.get` raise `AttributeError` out of the method,
modelled as `none`. -/
def asDictOr (v : JVal) : Option PyDict :=
  if pyTruthy v then
    match v with
    | .obj f => some f
    | _ => none
  else some []

/-- Conversion of `None`-or-number to JSON (for `lat`/`lon` record fields). -/
def optNum (o : Option ℚ) : JVal :=
  match o with
  | some q => .num q
  | none => .null

/-- Model of `str(x) if x else None` for optional path fields. -/
def optStr (o : Option String) : JVal :=
  match o with
  | some s => .str s
  | none => .null

/-- Model of `_construir_resultado` (lines 604-677): flatten folder metadata, the
coordinate pair and the AI response into the canonical per-store record.
`none` models the `AttributeError` escape on a truthy non-mapping section
(which the claims' hypotheses exclude). -/
def construirResultado (anio ciudad idTienda nombreTienda : String)
    (lat lon : Option ℚ) (iaData : PyDict) (kmzFile pdfFile : Option String) :
    Option PyDict := do
  let identificacion ← asDictOr (dictGet iaData "identificacion_proyecto")
  let exploracion ← asDictOr (dictGet iaData "exploracion_campo")
  let caracterizacion ← asDictOr (dictGet iaData "caracterizacion_suelo")
  let propiedades ← asDictOr (dictGet (caracterizacion) "propiedades_indice")
  let alternativas := dictGet iaData "alternativas_cimentacion_analizadas"
  let cimRecomendada ← asDictOr (dictGet iaData "cimentacion_recomendada")
  let analisisSismico ← asDictOr (dictGet iaData "analisis_sismico")
  let alternativasJson : JVal :=
    if pyTruthy alternativas then .str (jdumps alternativas) else .null
  pure [
    ("Año", .str anio),
    ("Ciudad", .str ciudad),
    ("ID_Tienda", .str idTienda),
    ("Nombre_Tienda", .str nombreTienda),
    ("Latitud_KMZ", optNum lat),
    ("Longitud_KMZ", optNum lon),
    ("Nombre_Obra_PDF", dictGet identificacion "nombre_obra"),
    ("Ubicacion_Detallada", dictGet identificacion "ubicacion_detallada"),
    ("Laboratorio", dictGet identificacion "laboratorio"),
    ("Fecha_Reporte", dictGet identificacion "fecha_reporte"),
    ("Cantidad_Sondeos", dictGet exploracion "cantidad_sondeos"),
    ("Metodologia", dictGet exploracion "metodologia"),
    ("Profundidad_Max_Explorada_m", dictGet exploracion "profundidad_maxima_explorada_m"),
    ("Presencia_NAF", dictGet exploracion "presencia_naf"),
    ("Profundidad_NAF_m", dictGet exploracion "profundidad_naf_m"),
    ("Tipo_Suelo_Predominante", dictGet caracterizacion "tipo_suelo_predominante"),
    ("Clasificacion_SUCS", dictGet caracterizacion "clasificacion_sucs"),
    ("Consistencia_Densidad", dictGet caracterizacion "consistencia_densidad"),
    ("Limite_Liquido_LL", dictGet propiedades "limite_liquido_ll"),
    ("Indice_Plasticidad_IP", dictGet propiedades "indice_plasticidad_ip"),
    ("Contenido_Agua_Promedio", dictGet propiedades "contenido_agua_promedio"),
    ("Alternativas_Cimentacion_JSON", alternativasJson),
    ("Tipo_Cimentacion_Recomendado", dictGet cimRecomendada "tipo"),
    ("Qadm_Recomendado_ton_m2", dictGet cimRecomendada "capacidad_carga_admisible_ton_m2"),
    ("Profundidad_Desplante_m", dictGet cimRecomendada "profundidad_desplante_m"),
    ("Justificacion_Recomendacion", dictGet cimRecomendada "justificacion"),
    ("Mejoramiento_Requerido", dictGet cimRecomendada "requiere_mejoramiento"),
    ("Detalles_Mejoramiento", dictGet cimRecomendada "descripcion_mejoramiento"),
    ("Zona_Sismica", dictGet analisisSismico "zona_sismica"),
    ("Coeficiente_Sismico", dictGet analisisSismico "coeficiente_sismico"),
    ("Clasificacion_Sitio", dictGet analisisSismico "clasificacion_sitio"),
    ("Observaciones_Criticas", dictGet iaData "observaciones_criticas"),
    ("Archivo_KMZ", optStr kmzFile),
    ("Archivo_PDF", optStr pdfFile),
    ("Error_Procesamiento", dictGet iaData "error")]

/-- The fixed 35-key layout of a `StoreRecord`, in the order the record
literal of `_construir_resultado` lists them. -/
def recordKeys : List String :=
  ["Año", "Ciudad", "ID_Tienda", "Nombre_Tienda", "Latitud_KMZ", "Longitud_KMZ",
   "Nombre_Obra_PDF", "Ubicacion_Detallada", "Laboratorio", "Fecha_Reporte",
   "Cantidad_Sondeos", "Metodologia", "Profundidad_Max_Explorada_m", "Presencia_NAF",
   "Profundidad_NAF_m", "Tipo_Suelo_Predominante", "Clasificacion_SUCS",
   "Consistencia_Densidad", "Limite_Liquido_LL", "Indice_Plasticidad_IP",
   "Contenido_Agua_Promedio", "Alternativas_Cimentacion_JSON",
   "Tipo_Cimentacion_Recomendado", "Qadm_Recomendado_ton_m2", "Profundidad_Desplante_m",
   "Justificacion_Recomendacion", "Mejoramiento_Requerido", "Detalles_Mejoramiento",
   "Zona_Sismica", "Coeficiente_Sismico", "Clasificacion_Sitio", "Observaciones_Criticas",
   "Archivo_KMZ", "Archivo_PDF", "Error_Procesamiento"]

/-- The 26 AI-derived record keys: every field of a `StoreRecord` whose
value comes from the Document Extractor's response (identification,
exploration, soil characterization with index properties, alternatives
JSON, recommended foundation, seismic analysis, critical observations). -/
def aiFieldKeys : List String :=
  ["Nombre_Obra_PDF", "Ubicacion_Detallada", "Laboratorio", "Fecha_Reporte",
   "Cantidad_Sondeos", "Metodologia", "Profundidad_Max_Explorada_m", "Presencia_NAF",
   "Profundidad_NAF_m", "Tipo_Suelo_Predominante", "Clasificacion_SUCS",
   "Consistencia_Densidad", "Limite_Liquido_LL", "Indice_Plasticidad_IP",
   "Contenido_Agua_Promedio", "Alternativas_Cimentacion_JSON",
   "Tipo_Cimentacion_Recomendado", "Qadm_Recomendado_ton_m2", "Profundidad_Desplante_m",
   "Justificacion_Recomendacion", "Mejoramiento_Requerido", "Detalles_Mejoramiento",
   "Zona_Sismica", "Coeficiente_Sismico", "Clasificacion_Sitio", "Observaciones_Criticas"]

/-! ## Checkpoint Store — `TiendaProcessor.__init__` (lines 186-204)

At startup the persisted collection (the JSON file written by
`_guardar_resultados`; `_cargar_checkpoint` returns `[]` when the file is
missing or unreadable) is folded into `tiendas_procesadas_paths`.  Set
membership is the only operation performed on that set, so it is modelled
as a list with `∈`. -/

/-- The `path_str` derivation of lines 189-196: the parent directory of
the record's `Archivo_PDF` when that value is truthy, else of its
`Archivo_KMZ` when truthy, else nothing.  (A truthy non-string would make
`Path(...)` raise out of `__init__`; pipeline-produced records hold only
strings or `null` there, and such a value is modelled as contributing no
identity.) -/
def recordDirStr (r : PyDict) : Option String :=
  let pdfv := dictGet r "Archivo_PDF"
  let kmzv := dictGet r "Archivo_KMZ"
  if pyTruthy pdfv then
    match pdfv with
    | .str s => some (pathParentStr s)
    | _ => none
  else if pyTruthy kmzv then
    match kmzv with
    | .str s => some (pathParentStr s)
    | _ => none
  else none

/-- Lines 198-204: normalize `path_str` relative to
`self.root_path.parent`, keeping the raw `path_str` when `relative_to`
raises `ValueError`.  `rootSegs` is the segment decomposition of
`self.root_path`. -/
def checkpointIdentity (rootSegs : List String) (r : PyDict) : Option String :=
  match recordDirStr r with
  | none => none
  | some dir =>
    match relativeSegs? (splitSegs dir) (parentSegs rootSegs) with
    | some rel => some (joinSegs rel)
    | none => some dir

/-- The `for r in self.resultados` reconstruction loop. -/
def reconstructPaths (rootSegs : List String) : List PyDict → List String
  | [] => []
  | r :: rest =>
    match checkpointIdentity rootSegs r with
    | some p => p :: reconstructPaths rootSegs rest
    | none => reconstructPaths rootSegs rest

/-! ## Pipeline Driver — `TiendaProcessor.procesar` (lines 462-562)

A leaf store directory of the scanned tree (`tiendas_a_procesar` entry) is
a `TiendaDir`; `stores` below is that list in the driver's sorted
traversal order.  The two extractors are supplied as per-store oracles:
`coordsOf` is the value of `extraer_coordenadas_kmz` on the store's first
KMZ member and `extract` the dictionary returned by `analizar_pdf_con_ia`
on its first PDF (both deterministic for an unmodified tree).
`_guardar_resultados` rewrites the full collection after every store, so
the persisted checkpoint of a completed run equals the returned
`resultados` list. -/

/-- One store folder of the scanned tree, with the names of its first
`*.kmz` / `*.pdf` members (if any). -/
structure TiendaDir where
  anio : String
  ciudad : String
  carpeta : String
  kmzName : Option String
  pdfName : Option String

/-- Segment path of the store directory: `root/<year>/<city>/<store>`. -/
def tiendaSegs (rootSegs : List String) (t : TiendaDir) : List String :=
  rootSegs ++ [t.anio, t.ciudad, t.carpeta]

/-- Line 513: `rel_path = str(tienda_dir.relative_to(self.root_path.parent))`
(always succeeds for a directory scanned under the root; the `getD`
fallback is unreachable there). -/
def relPathOfStore (rootSegs : List String) (t : TiendaDir) : String :=
  joinSegs ((relativeSegs? (tiendaSegs rootSegs t) (parentSegs rootSegs)).getD (tiendaSegs rootSegs t))

/-- The `ia_data` fed to the driver when the store has no PDF (line 542). -/
def pdfMissingDict : PyDict := [("error", .str "PDF no encontrado")]

/-- Mutable state of one `procesar` run: the result collection, the
processed-identity set (as a list) and the error entries. -/
structure RunState where
  resultados : List PyDict
  procesadasPaths : List String
  errores : List (String × String)

/-- One iteration of the main loop (lines 504-559): skip when the relative
path is already marked processed; otherwise run the extractors, build the
record, append it and mark the path.  `none` models an exception escaping
`_construir_resultado`. -/
def procesarStep (rootSegs : List String) (coordsOf : TiendaDir → Option (ℚ × ℚ))
    (extract : TiendaDir → PyDict) (st : RunState) (t : TiendaDir) : Option RunState :=
  let relPath := relPathOfStore rootSegs t
  if relPath ∈ st.procesadasPaths then some st
  else
    let parsed := parsearNombreTienda t.carpeta
    let latlon := match t.kmzName with
      | some _ => coordsOf t
      | none => none
    let errores₁ := match t.kmzName with
      | some _ => st.errores
      | none => st.errores ++ [(t.carpeta, "KMZ faltante")]
    let iaData := match t.pdfName with
      | some _ => extract t
      | none => pdfMissingDict
    let errores₂ := match t.pdfName with
      | some _ => errores₁
      | none => errores₁ ++ [(t.carpeta, "PDF faltante")]
    let kmzPath := t.kmzName.map (fun n => joinSegs (tiendaSegs rootSegs t ++ [n]))
    let pdfPath := t.pdfName.map (fun n => joinSegs (tiendaSegs rootSegs t ++ [n]))
    match construirResultado t.anio t.ciudad parsed.1 parsed.2
        (latlon.map Prod.fst) (latlon.map Prod.snd) iaData kmzPath pdfPath with
    | none => none
    | some rec => some ⟨st.resultados ++ [rec], st.procesadasPaths ++ [relPath], errores₂⟩

/-- The main loop over the traversal list. -/
def procesarCore (rootSegs : List String) (coordsOf : TiendaDir → Option (ℚ × ℚ))
    (extract : TiendaDir → PyDict) : List TiendaDir → RunState → Option RunState
  | [], st => some st
  | t :: rest, st =>
    match procesarStep rootSegs coordsOf extract st t with
    | none => none
    | some st' => procesarCore rootSegs coordsOf extract rest st'

/-- One full pipeline run: `__init__` over the persisted collection `prev`
(checkpoint load + identity reconstruction, with a fresh error list),
then `procesar`; the returned list is both the final in-memory collection
and — via the whole-collection rewrites of `_guardar_resultados` — the
persisted output. -/
def procesarRun (rootSegs : List String) (coordsOf : TiendaDir → Option (ℚ × ℚ))
    (extract : TiendaDir → PyDict) (stores : List TiendaDir) (prev : List PyDict) :
    Option (List PyDict) :=
  (procesarCore rootSegs coordsOf extract stores
    ⟨prev, reconstructPaths rootSegs prev, []⟩).map RunState.resultados

/-! ## Auxiliary predicates used by the theorem statements -/

/-- A schema section as the aggregator can default it: absent/`null` or an
object (the `x or {}` coercion of lines 609-617 turns exactly these into a
mapping without raising). -/
def sectionOk (v : JVal) : Prop :=
  v = .null ∨ ∃ f, v = .obj f

instance (v : JVal) : Decidable (sectionOk v) :=
  match v with
  | .null => .isTrue (Or.inl rfl)
  | .obj f => .isTrue (Or.inr ⟨f, rfl⟩)
  | .bool b => .isFalse (by rintro (h | ⟨f, h⟩) <;> simp_all)
  | .num q => .isFalse (by rintro (h | ⟨f, h⟩) <;> simp_all)
  | .str s => .isFalse (by rintro (h | ⟨f, h⟩) <;> simp_all)
  | .arr l => .isFalse (by rintro (h | ⟨f, h⟩) <;> simp_all)

/-- A well-formed path segment: non-empty and free of the separator
(directory and file names of a real tree; interior empty segments would be
collapsed by `pathlib` and are excluded from the model's scope). -/
def goodSeg (s : String) : Prop :=
  s ≠ "" ∧ '/' ∉ s.data

instance (s : String) : Decidable (goodSeg s) := by
  unfold goodSeg; infer_instance

/-- Well-formedness of a scanned store folder for the resume argument:
well-formed name segments, well-formed member file names, and at least one
of the two source files present. -/
def storeWF (t : TiendaDir) : Prop :=
  goodSeg t.anio ∧ goodSeg t.ciudad ∧ goodSeg t.carpeta ∧
  (∀ n, t.kmzName = some n → goodSeg n) ∧
  (∀ n, t.pdfName = some n → goodSeg n) ∧
  (t.kmzName ≠ none ∨ t.pdfName ≠ none)

/-- The record list whose length is compared in the resume counterexample:
a tree holding one store folder with neither a KMZ nor a PDF member. -/
def c1Stores : List TiendaDir :=
  [⟨"2023", "CUL", "z1", none, none⟩]

/-- Root path segments used by the concrete counterexample runs. -/
def c1Root : List String := ["", "data", "info"]

/-- Coordinate oracle for the concrete runs (never consulted for a store
without a KMZ member). -/
def c1Co : TiendaDir → Option (ℚ × ℚ) := fun _ => none

/-- Document-extractor oracle for the concrete runs (never consulted for a
store without a PDF member). -/
def c1Ex : TiendaDir → PyDict := fun _ => []

/-- A tree with one well-formed store folder holding both source files,
used to witness the amended resume property. -/
def c1GoodStores : List TiendaDir :=
  [⟨"2023", "CUL", "01) 5 X", some "a.kmz", some "b.pdf"⟩]

/-! # Theorems -/

/- Batteries marks the `Rat` operations `@[irreducible]`, which blocks
`rfl`/`decide` evaluation of the model on concrete inputs; restore
definitional transparency locally for the proofs below (the kernel treats
them as ordinary definitions regardless). -/
attribute [local semireducible] Rat.add Rat.mul Rat.inv Rat.sub Rat.ofScientific

/-! ## Shared helper lemmas -/

/-- Assigning a key makes it readable back (`d[k] = v; d.get(k) == v`). -/
theorem setKey_dictGet (d : PyDict) (k : String) (v : JVal) :
    dictGet (setKey d k v) k = v := by
  induction d with
  | nil => simp [setKey, dictGet]
  | cons h t ih =>
    obtain ⟨k', v'⟩ := h
    by_cases hk : k' = k
    · subst hk; simp [setKey, dictGet]
    · simp [setKey, dictGet, hk, ih]

/-- Greedy run extraction across an append boundary: when every character
of `l₁` satisfies `p` and the first character of `l₂` (if any) does not,
the `takeWhile`/`dropWhile` pair splits `l₁ ++ l₂` exactly at the
boundary. -/
theorem takeWhile_dropWhile_append {p : Char → Bool} :
    ∀ l₁ l₂ : List Char, (∀ a ∈ l₁, p a = true) →
      (∀ x, l₂.head? = some x → p x = false) →
      (l₁ ++ l₂).takeWhile p = l₁ ∧ (l₁ ++ l₂).dropWhile p = l₂ := by
  intro l₁
  induction l₁ with
  | nil =>
    intro l₂ _ h₂
    cases l₂ with
    | nil => simp
    | cons x r =>
      have hx := h₂ x rfl
      simp [List.takeWhile_cons, List.dropWhile_cons, hx]
  | cons c r ih =>
    intro l₂ h₁ h₂
    have hc : p c = true := h₁ c (by simp)
    have hr := ih l₂ (fun a ha => h₁ a (by simp [ha])) h₂
    simp [List.takeWhile_cons, List.dropWhile_cons, hc, hr.1, hr.2]

/-- A decimal digit is not regex whitespace. -/
theorem digit_not_ws {c : Char} (h : c.isDigit = true) : c.isWhitespace = false := by
  rcases hw : c.isWhitespace with _ | _
  · rfl
  · exfalso
    simp [Char.isWhitespace] at hw
    rcases hw with ((h' | h') | h') | h' <;> subst h' <;> simp [Char.isDigit] at h

/-! ## C8 — per-call cost computation and accumulation -/

/-- C8: for a completed service call whose reply parses as an object, the
derived cost equals `prompt * 1.75/1e6 + completion * 14.00/1e6`; it is
attached to the per-call `_usage` record and returned as the increment to
the process-wide running totals (together with both token counts); and
concretely 1000 prompt + 500 completion tokens cost 0.00875 USD. -/
theorem c8_per_call_cost :
    (∀ (o : Nat → CallOutcome) (i : Nat) (rest : List Nat) (content : String)
        (p c : Nat) (f : PyDict),
      o i = .response content p c → jsonLoads content = some (.obj f) →
      analizarLoop o (i :: rest) =
        ⟨setKey f "_usage" (usageDict p c), [], p, c, costoLlamada p c⟩ ∧
      dictGet (analizarLoop o (i :: rest)).result "_usage" = usageDict p c) ∧
    costoLlamada 1000 500 = 0.00875 := by
  constructor
  · intro o i rest content p c f ho hj
    have h1 : analizarLoop o (i :: rest) =
        ⟨setKey f "_usage" (usageDict p c), [], p, c, costoLlamada p c⟩ := by
      simp [analizarLoop, ho, responseResult, hj]
    exact ⟨h1, by rw [h1]; exact setKey_dictGet f "_usage" (usageDict p c)⟩
  · norm_num [costoLlamada, COSTO_INPUT_1M, COSTO_OUTPUT_1M]

/-- Witness for C8 at a concrete call: reply `"{}"`, 1000 prompt and 500
completion tokens. -/
theorem c8_per_call_cost_witness :
    analizarLoop (fun _ => .response "\x7b\x7d" 1000 500) [0] =
      ⟨setKey [] "_usage" (usageDict 1000 500), [], 1000, 500, costoLlamada 1000 500⟩ :=
  (c8_per_call_cost.1 (fun _ => .response "\x7b\x7d" 1000 500) 0 [] "\x7b\x7d" 1000 500 []
    rfl (by rfl)).1

/-! ## C6 — folder-name parsing -/

/-- A `takeWhile` over characters none of which satisfies the predicate is
empty. -/
theorem takeWhile_eq_nil_of_none {p : Char → Bool} :
    ∀ l : List Char, (∀ c ∈ l, p c = false) → l.takeWhile p = [] := by
  intro l h
  cases l with
  | nil => rfl
  | cons c r => simp [List.takeWhile_cons, h c (by simp)]

/-- Splitting at separators only (every character is a separator) leaves
only empty pieces. -/
theorem splitOnPred_all_sep {p : Char → Bool} :
    ∀ l : List Char, (∀ c ∈ l, p c = true) → ∀ piece ∈ splitOnPred p l, piece = [] := by
  intro l
  induction l with
  | nil => intro _ piece hp; simp [splitOnPred] at hp; exact hp
  | cons c r ih =>
    intro h piece hp
    have hc := h c (by simp)
    simp [splitOnPred, hc] at hp
    rcases hp with h' | h'
    · exact h'
    · exact ih (fun a ha => h a (by simp [ha])) piece h'

/-- The store pattern on a well-formed `<digits>) <digits> <name>` folder
name: both capture groups are recovered exactly. -/
theorem matchStorePattern_concat (d id nm : String)
    (hd₁ : d.data ≠ []) (hd₂ : ∀ c ∈ d.data, c.isDigit = true)
    (hid₁ : id.data ≠ []) (hid₂ : ∀ c ∈ id.data, c.isDigit = true)
    (hnm₁ : nm.data ≠ []) (hnm₂ : ∀ x, nm.data.head? = some x → x.isWhitespace = false) :
    matchStorePattern (d ++ ") " ++ id ++ " " ++ nm) = some (id, nm) := by
  have hdata : (d ++ ") " ++ id ++ " " ++ nm).data
      = d.data ++ (')' :: ' ' :: (id.data ++ ' ' :: nm.data)) := by
    show (d.data ++ (") ").data ++ id.data ++ (" ").data ++ nm.data) = _
    simp
  have hidhead : ∀ x, (id.data ++ ' ' :: nm.data).head? = some x → x.isWhitespace = false := by
    intro x hx
    cases hdt : id.data with
    | nil => exact absurd hdt hid₁
    | cons c r =>
      rw [hdt] at hx
      simp at hx
      subst hx
      exact digit_not_ws (hid₂ c (by rw [hdt]; simp))
  have h1 := takeWhile_dropWhile_append d.data (')' :: ' ' :: (id.data ++ ' ' :: nm.data)) hd₂
    (by intro x hx; simp at hx; subst hx; rfl)
  have h2 := takeWhile_dropWhile_append [' '] (id.data ++ ' ' :: nm.data)
    (by intro a ha; simp at ha; subst ha; rfl) hidhead
  have h3 := takeWhile_dropWhile_append id.data (' ' :: nm.data) hid₂
    (by intro x hx; simp at hx; subst hx; rfl)
  have h4 := takeWhile_dropWhile_append [' '] nm.data
    (by intro a ha; simp at ha; subst ha; rfl) hnm₂
  simp only [matchStorePattern, hdata, h1.1, h1.2]
  rw [if_neg (by simpa using hd₁)]
  rw [if_neg (by simp)]
  simp only [List.tail_cons]
  have h2' : (' ' :: (id.data ++ ' ' :: nm.data)).dropWhile Char.isWhitespace
      = id.data ++ ' ' :: nm.data := by
    have := h2.2
    simpa using this
  rw [h2', h3.1, h3.2]
  rw [if_neg (by simpa using hid₁)]
  have h4t : (' ' :: nm.data).takeWhile Char.isWhitespace = [' '] := by
    have := h4.1; simpa using this
  have h4d : (' ' :: nm.data).dropWhile Char.isWhitespace = nm.data := by
    have := h4.2; simpa using this
  rw [h4t, h4d]
  rw [if_neg (by simp)]
  rw [if_pos (by simpa using hnm₁)]

/-- C6 counterexample: a folder name with no digits parses to the sentinel
id `"N/A"`, not `"unknown"` as the claim states. -/
theorem c6_folder_name_counterexample :
    parsearNombreTienda "weird_name" = ("N/A", "weird_name") ∧
    parsearNombreTienda "weird_name" ≠ ("unknown", "weird_name") := by
  constructor
  · rfl
  · decide

/-- C6 (amended): `"03) 42056 FELIX CASTRO"` parses to
`("42056", "FELIX CASTRO")`; every folder name of the shape
`<ordinal>) <numeric-id> <name>` yields the numeric id and the trimmed
trailing text; a name with no digits yields the sentinel `"N/A"` (not
`"unknown"`) with the raw name; and when the pattern fails but the name
holds at least two integer substrings, the second one is the id with the
raw name as display name. -/
theorem c6_folder_name_amended :
    parsearNombreTienda "03) 42056 FELIX CASTRO" = ("42056", "FELIX CASTRO") ∧
    (∀ d id nm : String, d.data ≠ [] → (∀ c ∈ d.data, c.isDigit = true) →
      id.data ≠ [] → (∀ c ∈ id.data, c.isDigit = true) →
      nm.data ≠ [] → (∀ x, nm.data.head? = some x → x.isWhitespace = false) →
      parsearNombreTienda (d ++ ") " ++ id ++ " " ++ nm) = (id, pyStrip nm)) ∧
    (∀ s : String, (∀ c ∈ s.data, c.isDigit = false) →
      parsearNombreTienda s = ("N/A", s)) ∧
    (∀ (s n₁ n₂ : String) (rest : List String),
      matchStorePattern s = none → findAllNumbers s = n₁ :: n₂ :: rest →
      parsearNombreTienda s = (n₂, s)) := by
  refine ⟨by decide, ?_, ?_, ?_⟩
  · intro d id nm hd₁ hd₂ hid₁ hid₂ hnm₁ hnm₂
    have hm := matchStorePattern_concat d id nm hd₁ hd₂ hid₁ hid₂ hnm₁ hnm₂
    simp [parsearNombreTienda, hm]
  · intro s h
    have hmatch : matchStorePattern s = none := by
      have hd1 : s.data.takeWhile Char.isDigit = [] :=
        takeWhile_eq_nil_of_none s.data h
      simp [matchStorePattern, hd1]
    have hfind : findAllNumbers s = [] := by
      unfold findAllNumbers
      have hall := splitOnPred_all_sep (p := fun c => !c.isDigit) s.data
        (by intro c hc; simp [h c hc])
      have : (splitOnPred (fun c => !c.isDigit) s.data).filter (· ≠ []) = [] := by
        rw [List.filter_eq_nil_iff]
        intro piece hp
        simp [hall piece hp]
      rw [this]
      rfl
    simp [parsearNombreTienda, hmatch, hfind]
  · intro s n₁ n₂ rest hm hf
    simp [parsearNombreTienda, hm, hf]

/-- Witness for C6 (amended) at the concrete folder name `"07) 123 X Y"`. -/
theorem c6_folder_name_amended_witness :
    parsearNombreTienda ("07" ++ ") " ++ "123" ++ " " ++ "X Y") = ("123", pyStrip "X Y") :=
  c6_folder_name_amended.2.1 "07" "123" "X Y"
    (by decide) (by decide) (by decide) (by decide) (by decide) (by decide)

/-! ## C7 — JSON repair pass -/

/-- Running `firstIdxOf` across a miss-only prefix: the first hit is right after
the prefix. -/
theorem firstIdxOf_append_hit {p : Char → Bool} :
    ∀ (pre rest : List Char) (c : Char), (∀ a ∈ pre, p a = false) → p c = true →
      firstIdxOf p (pre ++ c :: rest) = some pre.length := by
  intro pre
  induction pre with
  | nil => intro rest c _ hc; simp [firstIdxOf, hc]
  | cons a r ih =>
    intro rest c h hc
    have ha := h a (by simp)
    simp [firstIdxOf, ha, ih rest c (fun x hx => h x (by simp [hx])) hc]

/-- C7 counterexample: on reply content `{"a": 1}}` the script's greedy
pattern captures the whole span up to the LAST closing brace (which fails
to re-parse, so the call degrades to the error result), whereas the
claim's "first balanced brace-delimited substring" would be `{"a": 1}`,
which re-parses successfully. -/
theorem c7_json_repair_counterexample :
    pyRepairCapture "\x7b\"a\": 1\x7d\x7d" = some "\x7b\"a\": 1\x7d\x7d" ∧
    firstBalancedBrace "\x7b\"a\": 1\x7d\x7d" = some "\x7b\"a\": 1\x7d" ∧
    pyRepairCapture "\x7b\"a\": 1\x7d\x7d" ≠ firstBalancedBrace "\x7b\"a\": 1\x7d\x7d" ∧
    jsonLoads "\x7b\"a\": 1\x7d" = some (.obj [("a", .num 1)]) ∧
    responseResult "\x7b\"a\": 1\x7d\x7d" 10 20 =
      errorResult (invalidJsonMsg "\x7b\"a\": 1\x7d\x7d") := by
  refine ⟨rfl, rfl, by decide, rfl, rfl⟩

/-- C7 (amended): on a reply whose content fails to parse, exactly one
repair pass runs (the attempt returns immediately; no further retry or
sleep), extracting the substring that spans from the first opening brace
of the content to its last closing brace and re-parsing that; if the
capture fails, or the re-parse does not yield an object, the result
carries the error field with the 100-character-truncated snippet. -/
theorem c7_json_repair_amended :
    (∀ (o : Nat → CallOutcome) (i : Nat) (rest : List Nat) (content : String) (p c : Nat),
      o i = .response content p c → jsonLoads content = none →
      analizarLoop o (i :: rest) = ⟨repairResult content p c, [], p, c, costoLlamada p c⟩) ∧
    (∀ (content : String) (p c : Nat) (cap : String) (f : PyDict),
      content ≠ "" → '{' ∈ content.data →
      pyRepairCapture content = some cap → jsonLoads cap = some (.obj f) →
      repairResult content p c = setKey f "_usage" (usageDict p c)) ∧
    (∀ (content : String) (p c : Nat) (cap : String),
      content ≠ "" → '{' ∈ content.data →
      pyRepairCapture content = some cap → (∀ f, jsonLoads cap ≠ some (.obj f)) →
      repairResult content p c = errorResult (invalidJsonMsg content)) ∧
    (∀ (content : String) (p c : Nat),
      pyRepairCapture content = none →
      repairResult content p c = errorResult (invalidJsonMsg content)) ∧
    (∀ pre mid post : List Char, (∀ a ∈ pre, a ≠ '{') → (∀ a ∈ post, a ≠ '}') →
      pyRepairCapture (String.mk (pre ++ '{' :: (mid ++ '}' :: post))) =
        some (String.mk ('{' :: (mid ++ ['}'])))) := by
  refine ⟨?_, ?_, ?_, ?_, ?_⟩
  · intro o i rest content p c ho hj
    simp [analizarLoop, ho, responseResult, hj]
  · intro content p c cap f hne hcont hcap hjson
    simp [repairResult, hne, hcont, hcap, hjson]
  · intro content p c cap hne hcont hcap hjson
    cases hj : jsonLoads cap with
    | none => simp [repairResult, hne, hcont, hcap, hj]
    | some v =>
      cases v with
      | obj g => exact absurd hj (hjson g)
      | null => simp [repairResult, hne, hcont, hcap, hj]
      | bool b => simp [repairResult, hne, hcont, hcap, hj]
      | num q => simp [repairResult, hne, hcont, hcap, hj]
      | str s => simp [repairResult, hne, hcont, hcap, hj]
      | arr l => simp [repairResult, hne, hcont, hcap, hj]
  · intro content p c hcap
    by_cases hcond : content ≠ "" ∧ '{' ∈ content.data
    · simp [repairResult, hcond.1, hcond.2, hcap]
    · rw [repairResult, if_neg hcond]
  · intro pre mid post hpre hpost
    have hfst : firstIdxOf (· = '{') (pre ++ '{' :: (mid ++ '}' :: post)) = some pre.length :=
      firstIdxOf_append_hit pre _ '{' (by intro a ha; simp [hpre a ha]) (by simp)
    have hrevEq : (pre ++ '{' :: (mid ++ '}' :: post)).reverse
        = post.reverse ++ '}' :: (mid.reverse ++ '{' :: pre.reverse) := by
      simp
    have hsnd : firstIdxOf (· = '}') (pre ++ '{' :: (mid ++ '}' :: post)).reverse
        = some post.length := by
      rw [hrevEq]
      have h9 : firstIdxOf (· = '}') (post.reverse ++ '}' :: (mid.reverse ++ '{' :: pre.reverse))
          = some post.reverse.length :=
        firstIdxOf_append_hit post.reverse (mid.reverse ++ '{' :: pre.reverse) '}'
          (by intro a ha; simp at ha; simp [hpost a ha]) (by simp)
      simpa using h9
    have hlen : (pre ++ '{' :: (mid ++ '}' :: post)).length
        = pre.length + mid.length + post.length + 2 := by
      simp; omega
    have hdrop : (pre ++ '{' :: (mid ++ '}' :: post)).drop pre.length
        = '{' :: (mid ++ '}' :: post) := List.drop_left pre _
    have hsplit : '{' :: (mid ++ '}' :: post) = ('{' :: (mid ++ ['}'])) ++ post := by
      simp
    have htake : ('{' :: (mid ++ '}' :: post)).take (mid.length + 2)
        = '{' :: (mid ++ ['}']) := by
      rw [hsplit]
      exact List.take_left' (by simp)
    simp only [pyRepairCapture, hfst, hsnd, hlen]
    have hj : pre.length + mid.length + post.length + 2 - 1 - post.length
        = pre.length + (mid.length + 1) := by omega
    rw [hj, if_pos (by omega)]
    rw [hdrop]
    have harith : pre.length + (mid.length + 1) - pre.length + 1 = mid.length + 2 := by omega
    rw [harith, htake]

/-- Witness for C7 (amended): the repair pass on the concrete unparseable
content `x{1}` captures `{1}`, whose re-parse (the number 1, not an
object) fails, leaving the truncated-snippet error result. -/
theorem c7_json_repair_amended_witness :
    repairResult "x\x7b1\x7d" 10 20 = errorResult (invalidJsonMsg "x\x7b1\x7d") :=
  c7_json_repair_amended.2.2.1 "x\x7b1\x7d" 10 20 "\x7b1\x7d"
    (by decide) (by decide) (by rfl)
    (by
      intro f h
      have hv : jsonLoads "\x7b1\x7d" = none := by rfl
      rw [hv] at h
      exact Option.noConfusion h)

/-! ## C5 — Coordinate Extractor fail-soft totality -/

/-- The element loop yields nothing when no element yields a pair. -/
theorem extraerCoordsElems_eq_none :
    ∀ l : List String, (∀ t ∈ l, elemCoord t = none) → extraerCoordsElems l = none := by
  intro l
  induction l with
  | nil => intro _; rfl
  | cons t r ih =>
    intro hh
    simp [extraerCoordsElems, hh t (by simp), ih (fun u hu => hh u (by simp [hu]))]

/-- C5: every failure mode of the Coordinate Extractor — an unreadable or
invalid archive (including a nonexistent file), an archive with no KML
member, a KML member that fails to parse as XML, and a document none of
whose coordinates elements yields two parseable numeric components —
returns the absent pair (`None, None`); the model is a total function of
the observable input, mirroring that the enclosing `try/except` lets no
exception escape. -/
theorem c5_coordinate_failsoft :
    extraerCoordenadasKmz .badArchive = none ∧
    (∀ (names : List String) (kml : KmlOutcome),
      names.filter isKmlName = [] → extraerCoordenadasKmz (.archive names kml) = none) ∧
    (∀ names : List String, extraerCoordenadasKmz (.archive names .parseError) = none) ∧
    (∀ names elems : List String,
      (∀ t ∈ elems, elemCoord t = none) →
      extraerCoordenadasKmz (.archive names (.doc elems)) = none) := by
  refine ⟨rfl, ?_, ?_, ?_⟩
  · intro names kml h
    simp [extraerCoordenadasKmz, h]
  · intro names
    by_cases h : names.filter isKmlName = [] <;> simp [extraerCoordenadasKmz, h]
  · intro names elems h
    by_cases hn : names.filter isKmlName = []
    · simp [extraerCoordenadasKmz, hn]
    · simp [extraerCoordenadasKmz, hn, extraerCoordsElems_eq_none elems h]

/-- Witness for C5 at a concrete archive: one KML member whose
coordinates elements hold garbage and a single-component token. -/
theorem c5_coordinate_failsoft_witness :
    extraerCoordenadasKmz (.archive ["doc.kml"] (.doc ["abc,def", "1"])) = none :=
  c5_coordinate_failsoft.2.2.2 ["doc.kml"] ["abc,def", "1"] (by decide)

/-! ## C3 — coordinate parsing order -/

/-- Inversion of the per-element parse: a produced pair takes its
longitude from the FIRST comma component of the element's FIRST
whitespace token and its latitude from the SECOND. -/
theorem elemCoord_eq_some {t : String} {lat lon : ℚ}
    (h : elemCoord t = some (lat, lon)) :
    ∃ (tok : String) (toks : List String) (p0 p1 : String) (ps : List String),
      pyStrip t ≠ "" ∧ pySplitWs (pyStrip t) = tok :: toks ∧
      pySplitComma tok = p0 :: p1 :: ps ∧
      pyFloat? (pyStrip p0) = some lon ∧ pyFloat? (pyStrip p1) = some lat := by
  unfold elemCoord at h
  by_cases hs : pyStrip t = ""
  · simp [hs] at h
  · rw [if_neg hs] at h
    cases hsplit : pySplitWs (pyStrip t) with
    | nil => rw [hsplit] at h; exact absurd h (by simp)
    | cons tok toks =>
      rw [hsplit] at h
      dsimp only at h
      cases hcomma : pySplitComma tok with
      | nil => rw [hcomma] at h; exact absurd h (by simp)
      | cons p0 rest =>
        cases rest with
        | nil => rw [hcomma] at h; exact absurd h (by simp)
        | cons p1 ps =>
          rw [hcomma] at h
          dsimp only at h
          cases hf0 : pyFloat? (pyStrip p0) with
          | none => rw [hf0] at h; exact absurd h (by simp)
          | some lon' =>
            cases hf1 : pyFloat? (pyStrip p1) with
            | none => rw [hf0, hf1] at h; exact absurd h (by simp)
            | some lat' =>
              rw [hf0, hf1] at h
              simp at h
              exact ⟨tok, toks, p0, p1, ps, hs, rfl, hcomma,
                by rw [hf0, h.2], by rw [hf1, h.1]⟩

/-- C3: for every archive with a KML member whose first non-empty
coordinates element's first whitespace token is `"-99.1332,19.4326,0"`,
the extractor returns latitude 19.4326 and longitude −99.1332; and in
general a produced pair always reads (longitude, latitude) in that order
from the first two comma components of the first whitespace token of the
yielding element — never swapped. -/
theorem c3_coordinate_parsing_order :
    (∀ (names pre post : List String) (t : String),
      names.filter isKmlName ≠ [] →
      (∀ u ∈ pre, pyStrip u = "") →
      (pySplitWs (pyStrip t)).head? = some "-99.1332,19.4326,0" →
      extraerCoordenadasKmz (.archive names (.doc (pre ++ t :: post))) =
        some (19.4326, -99.1332)) ∧
    (∀ (elems : List String) (lat lon : ℚ),
      extraerCoordsElems elems = some (lat, lon) →
      ∃ t ∈ elems, ∃ (tok : String) (toks : List String) (p0 p1 : String) (ps : List String),
        pyStrip t ≠ "" ∧ pySplitWs (pyStrip t) = tok :: toks ∧
        pySplitComma tok = p0 :: p1 :: ps ∧
        pyFloat? (pyStrip p0) = some lon ∧ pyFloat? (pyStrip p1) = some lat) := by
  constructor
  · intro names pre post t hn hpre hhead
    have hs : pyStrip t ≠ "" := by
      intro hs
      rw [hs] at hhead
      simp [pySplitWs, splitOnPred, pyStrip] at hhead
    obtain ⟨toks, hsplit⟩ : ∃ toks, pySplitWs (pyStrip t) = "-99.1332,19.4326,0" :: toks := by
      cases hv : pySplitWs (pyStrip t) with
      | nil => rw [hv] at hhead; exact absurd hhead (by simp)
      | cons a as =>
        rw [hv] at hhead
        simp at hhead
        exact ⟨as, by rw [hhead]⟩
    have helem : elemCoord t = some (19.4326, -99.1332) := by
      unfold elemCoord
      rw [if_neg hs, hsplit]
      dsimp only
      decide
    have hloop : extraerCoordsElems (pre ++ t :: post) = some (19.4326, -99.1332) := by
      induction pre with
      | nil => simp [extraerCoordsElems, helem]
      | cons u us ih =>
        have hu : elemCoord u = none := by
          have := hpre u (by simp)
          simp [elemCoord, this]
        simp [extraerCoordsElems, hu]
        exact ih (fun v hv => hpre v (by simp [hv]))
    simp [extraerCoordenadasKmz, hn, hloop]
  · intro elems
    induction elems with
    | nil => intro lat lon h; exact absurd h (by simp [extraerCoordsElems])
    | cons t r ih =>
      intro lat lon h
      cases he : elemCoord t with
      | some p =>
        have hp : p = (lat, lon) := by
          unfold extraerCoordsElems at h
          rw [he] at h
          simpa using h
        obtain ⟨tok, toks, p0, p1, ps, h1, h2, h3, h4, h5⟩ :=
          elemCoord_eq_some (t := t) (by rw [he, hp])
        exact ⟨t, by simp, tok, toks, p0, p1, ps, h1, h2, h3, h4, h5⟩
      | none =>
        unfold extraerCoordsElems at h
        rw [he] at h
        obtain ⟨u, hu, w⟩ := ih lat lon h
        exact ⟨u, by simp [hu], w⟩

/-- Witness for C3 at the spec's concrete token string (two points in one
element; only the first is read). -/
theorem c3_coordinate_parsing_order_witness :
    extraerCoordenadasKmz
      (.archive ["doc.kml"] (.doc ["-99.1332,19.4326,0 -99.2,19.5,0"])) =
      some (19.4326, -99.1332) :=
  c3_coordinate_parsing_order.1 ["doc.kml"] [] []
    "-99.1332,19.4326,0 -99.2,19.5,0" (by decide) (by simp) (by decide)

/-! ## C4 — Document Extractor retry policy -/

/-- Exhausting the index list under rate-limit signals alone: every
attempt `i` sleeps `(i+1)*30` seconds and the loop falls through to the
terminal error result. -/
theorem analizarLoop_all_rate_limit (o : Nat → CallOutcome) :
    ∀ idxs : List Nat, (∀ i ∈ idxs, o i = CallOutcome.rateLimit) →
      analizarLoop o idxs =
        ⟨errorResult "Máximo de reintentos alcanzado",
          idxs.map (fun i => (i + 1) * 30), 0, 0, 0⟩ := by
  intro idxs
  induction idxs with
  | nil => intro _; rfl
  | cons i rest ih =>
    intro h
    simp [analizarLoop, h i (by simp), ih (fun j hj => h j (by simp [hj]))]

/-- C4: a rate-limit signal during attempt `i` (0-based) sleeps
`(i+1)*30` seconds and retries (even on the last attempt); a generic
service error sleeps 5 seconds and retries, except on the final attempt
where its message is captured into the result's error field and returned;
attempts are bounded by the index list `range max_retries`; and
exhausting all retries returns the terminal error result
`"Máximo de reintentos alcanzado"` instead of raising. -/
theorem c4_retry_policy :
    (∀ (o : Nat → CallOutcome) (n : Nat), (∀ i, i < n → o i = CallOutcome.rateLimit) →
      analizarPdfConIa o n =
        ⟨errorResult "Máximo de reintentos alcanzado",
          (List.range n).map (fun i => (i + 1) * 30), 0, 0, 0⟩) ∧
    (∀ (o : Nat → CallOutcome) (i : Nat) (rest : List Nat),
      o i = CallOutcome.rateLimit →
      analizarLoop o (i :: rest) =
        ⟨(analizarLoop o rest).result, (i + 1) * 30 :: (analizarLoop o rest).sleeps,
          (analizarLoop o rest).addedInputTokens, (analizarLoop o rest).addedOutputTokens,
          (analizarLoop o rest).addedCost⟩) ∧
    (∀ (o : Nat → CallOutcome) (i j : Nat) (rest : List Nat) (msg : String),
      o i = CallOutcome.apiError msg →
      analizarLoop o (i :: j :: rest) =
        ⟨(analizarLoop o (j :: rest)).result, 5 :: (analizarLoop o (j :: rest)).sleeps,
          (analizarLoop o (j :: rest)).addedInputTokens,
          (analizarLoop o (j :: rest)).addedOutputTokens,
          (analizarLoop o (j :: rest)).addedCost⟩) ∧
    (∀ (o : Nat → CallOutcome) (i : Nat) (msg : String),
      o i = CallOutcome.apiError msg →
      analizarLoop o [i] = ⟨errorResult msg, [], 0, 0, 0⟩) ∧
    (∀ o : Nat → CallOutcome,
      analizarLoop o [] = ⟨errorResult "Máximo de reintentos alcanzado", [], 0, 0, 0⟩) := by
  refine ⟨?_, ?_, ?_, ?_, ?_⟩
  · intro o n h
    exact analizarLoop_all_rate_limit o (List.range n)
      (fun i hi => h i (List.mem_range.mp hi))
  · intro o i rest h
    simp [analizarLoop, h]
  · intro o i j rest msg h
    simp [analizarLoop, h]
  · intro o i msg h
    simp [analizarLoop, h]
  · intro o
    rfl

/-- Witness for C4: three straight rate-limit signals sleep 30 s, 60 s
and 90 s and end in the terminal error result. -/
theorem c4_retry_policy_witness :
    analizarPdfConIa (fun _ => CallOutcome.rateLimit) 3 =
      ⟨errorResult "Máximo de reintentos alcanzado", [30, 60, 90], 0, 0, 0⟩ := by
  have h := c4_retry_policy.1 (fun _ => CallOutcome.rateLimit) 3 (fun i _ => rfl)
  exact h.trans (by rfl)

/-! ## C9 — Aggregator totality on absent/null sections -/

/-- The `x or {}` coercion on an absent/null-or-object section always
succeeds; a null/absent section becomes the empty mapping, a present
object keeps its fields. -/
theorem asDictOr_ok {v : JVal} (h : sectionOk v) :
    ∃ f, asDictOr v = some f ∧ (v = .null → f = []) ∧ (∀ g, v = .obj g → f = g) := by
  rcases h with h | ⟨g, hg⟩
  · subst h
    exact ⟨[], rfl, fun _ => rfl, fun g hgg => JVal.noConfusion hgg⟩
  · subst hg
    by_cases hgnil : g = []
    · subst hgnil
      exact ⟨[], rfl, fun hh => JVal.noConfusion hh, fun g' hgg => by
        cases hgg; rfl⟩
    · refine ⟨g, ?_, fun hh => JVal.noConfusion hh, fun g' hgg => by cases hgg; rfl⟩
      simp [asDictOr, pyTruthy, hgnil]

/-- C9: for every extractor response in which each nested section is
either absent/null or an object (and the index-properties subsection of a
present soil-characterization section likewise), the record builder
substitutes an empty mapping (empty list for the alternatives) for the
missing sections and completes without raising, producing a record with
every one of the 35 fixed keys present; the fields fed by a null section
come out null. -/
theorem c9_aggregator_totality :
    ∀ (iaData : PyDict) (a c i n : String) (lat lon : Option ℚ) (k p : Option String),
      sectionOk (dictGet iaData "identificacion_proyecto") →
      sectionOk (dictGet iaData "exploracion_campo") →
      sectionOk (dictGet iaData "caracterizacion_suelo") →
      (∀ f, dictGet iaData "caracterizacion_suelo" = .obj f →
        sectionOk (dictGet f "propiedades_indice")) →
      sectionOk (dictGet iaData "cimentacion_recomendada") →
      sectionOk (dictGet iaData "analisis_sismico") →
      ∃ rec, construirResultado a c i n lat lon iaData k p = some rec ∧
        rec.map Prod.fst = recordKeys ∧
        (dictGet iaData "alternativas_cimentacion_analizadas" = .null →
          dictGet rec "Alternativas_Cimentacion_JSON" = .null) ∧
        (dictGet iaData "identificacion_proyecto" = .null →
          dictGet rec "Nombre_Obra_PDF" = .null ∧ dictGet rec "Ubicacion_Detallada" = .null ∧
          dictGet rec "Laboratorio" = .null ∧ dictGet rec "Fecha_Reporte" = .null) ∧
        (dictGet iaData "exploracion_campo" = .null →
          dictGet rec "Cantidad_Sondeos" = .null ∧ dictGet rec "Metodologia" = .null ∧
          dictGet rec "Profundidad_Max_Explorada_m" = .null ∧
          dictGet rec "Presencia_NAF" = .null ∧ dictGet rec "Profundidad_NAF_m" = .null) ∧
        (dictGet iaData "caracterizacion_suelo" = .null →
          dictGet rec "Tipo_Suelo_Predominante" = .null ∧
          dictGet rec "Clasificacion_SUCS" = .null ∧
          dictGet rec "Consistencia_Densidad" = .null ∧
          dictGet rec "Limite_Liquido_LL" = .null ∧
          dictGet rec "Indice_Plasticidad_IP" = .null ∧
          dictGet rec "Contenido_Agua_Promedio" = .null) ∧
        (dictGet iaData "cimentacion_recomendada" = .null →
          dictGet rec "Tipo_Cimentacion_Recomendado" = .null ∧
          dictGet rec "Qadm_Recomendado_ton_m2" = .null ∧
          dictGet rec "Profundidad_Desplante_m" = .null ∧
          dictGet rec "Justificacion_Recomendacion" = .null ∧
          dictGet rec "Mejoramiento_Requerido" = .null ∧
          dictGet rec "Detalles_Mejoramiento" = .null) ∧
        (dictGet iaData "analisis_sismico" = .null →
          dictGet rec "Zona_Sismica" = .null ∧ dictGet rec "Coeficiente_Sismico" = .null ∧
          dictGet rec "Clasificacion_Sitio" = .null) := by
  intro ia a c i n lat lon k p h₁ h₂ h₃ h₄ h₅ h₆
  obtain ⟨f₁, hf₁, hn₁, _⟩ := asDictOr_ok h₁
  obtain ⟨f₂, hf₂, hn₂, _⟩ := asDictOr_ok h₂
  obtain ⟨f₃, hf₃, hn₃, ho₃⟩ := asDictOr_ok h₃
  have h₄' : sectionOk (dictGet f₃ "propiedades_indice") := by
    rcases h₃ with hnull | ⟨g, hobj⟩
    · rw [hn₃ hnull]
      exact Or.inl rfl
    · rw [ho₃ g hobj]
      exact h₄ g hobj
  obtain ⟨f₄, hf₄, _, _⟩ := asDictOr_ok h₄'
  obtain ⟨f₅, hf₅, hn₅, _⟩ := asDictOr_ok h₅
  obtain ⟨f₆, hf₆, hn₆, _⟩ := asDictOr_ok h₆
  simp only [construirResultado, hf₁, hf₂, hf₃, hf₄, hf₅, hf₆, Option.bind_eq_bind,
    Option.some_bind, Option.pure_def]
  refine ⟨_, rfl, rfl, ?_, ?_, ?_, ?_, ?_, ?_⟩
  · intro hh
    simp [dictGet, hh, pyTruthy]
  · intro hh
    rw [hn₁ hh]
    exact ⟨rfl, rfl, rfl, rfl⟩
  · intro hh
    rw [hn₂ hh]
    exact ⟨rfl, rfl, rfl, rfl, rfl⟩
  · intro hh
    rw [hn₃ hh] at hf₄ ⊢
    have hf4nil : f₄ = [] := by
      have h9 : (some ([] : PyDict) : Option PyDict) = some f₄ := by
        simpa [dictGet, asDictOr, pyTruthy] using hf₄
      exact (Option.some.inj h9).symm
    rw [hf4nil]
    exact ⟨rfl, rfl, rfl, rfl, rfl, rfl⟩
  · intro hh
    rw [hn₅ hh]
    exact ⟨rfl, rfl, rfl, rfl, rfl, rfl⟩
  · intro hh
    rw [hn₆ hh]
    exact ⟨rfl, rfl, rfl⟩

/-- Witness for C9 on a concrete response holding one present section, one
explicit null and the rest absent. -/
theorem c9_aggregator_totality_witness :
    (construirResultado "2023" "CUL" "42" "X" (some 19.25) none
      [("identificacion_proyecto", JVal.obj [("nombre_obra", JVal.str "T")]),
       ("exploracion_campo", JVal.null)]
      (some "a.kmz") none).isSome = true ∧
    ((construirResultado "2023" "CUL" "42" "X" (some 19.25) none
      [("identificacion_proyecto", JVal.obj [("nombre_obra", JVal.str "T")]),
       ("exploracion_campo", JVal.null)]
      (some "a.kmz") none).getD []).map Prod.fst = recordKeys := by
  obtain ⟨rec, hrec, hkeys, _⟩ := c9_aggregator_totality
    [("identificacion_proyecto", JVal.obj [("nombre_obra", JVal.str "T")]),
     ("exploracion_campo", JVal.null)]
    "2023" "CUL" "42" "X" (some 19.25) none (some "a.kmz") none
    (by decide) (by decide) (by decide) (by intro f hf; exact JVal.noConfusion hf)
    (by decide) (by decide)
  rw [hrec]
  exact ⟨rfl, hkeys⟩

/-! ## C10 — error atomicity of AI-derived fields -/

/-- The folder-derived fields and the coordinate pair of a built record
never depend on the extractor response: whenever `_construir_resultado`
completes, those fields hold exactly the driver-supplied values. -/
theorem construirResultado_fields
    {a c i n : String} {lat lon : Option ℚ} {ia : PyDict} {k p : Option String}
    {rec : PyDict} (h : construirResultado a c i n lat lon ia k p = some rec) :
    dictGet rec "Año" = .str a ∧ dictGet rec "Ciudad" = .str c ∧
    dictGet rec "ID_Tienda" = .str i ∧ dictGet rec "Nombre_Tienda" = .str n ∧
    dictGet rec "Latitud_KMZ" = optNum lat ∧ dictGet rec "Longitud_KMZ" = optNum lon ∧
    dictGet rec "Archivo_KMZ" = optStr k ∧ dictGet rec "Archivo_PDF" = optStr p := by
  simp only [construirResultado, Option.bind_eq_bind, Option.bind_eq_some,
    Option.pure_def, Option.some.injEq] at h
  obtain ⟨f₁, hf₁, f₂, hf₂, f₃, hf₃, f₄, hf₄, f₅, hf₅, f₆, hf₆, hrec⟩ := h
  subst hrec
  exact ⟨rfl, rfl, rfl, rfl, rfl, rfl, rfl, rfl⟩

/-- C10: when document extraction fails — retry exhaustion, a terminal
service error or an unrepairable parse failure (all returning
`resultado_vacio` with some error message), or a missing document (which
feeds `{"error": "PDF no encontrado"}`) — the built record holds `null`
in every one of the 26 AI-derived fields and the failure reason in
`Error_Procesamiento`, while the folder-derived fields and the
independently extracted coordinate pair are populated exactly as in the
success case (they never depend on the extractor response). -/
theorem c10_error_atomicity :
    ∀ (msg a c i n : String) (lat lon : Option ℚ) (k p : Option String),
      (∃ rec, construirResultado a c i n lat lon (errorResult msg) k p = some rec ∧
        (∀ key ∈ aiFieldKeys, dictGet rec key = JVal.null) ∧
        dictGet rec "Error_Procesamiento" = .str msg ∧
        dictGet rec "Año" = .str a ∧ dictGet rec "Ciudad" = .str c ∧
        dictGet rec "ID_Tienda" = .str i ∧ dictGet rec "Nombre_Tienda" = .str n ∧
        dictGet rec "Latitud_KMZ" = optNum lat ∧ dictGet rec "Longitud_KMZ" = optNum lon ∧
        dictGet rec "Archivo_KMZ" = optStr k ∧ dictGet rec "Archivo_PDF" = optStr p) ∧
      (∃ rec, construirResultado a c i n lat lon pdfMissingDict k p = some rec ∧
        (∀ key ∈ aiFieldKeys, dictGet rec key = JVal.null) ∧
        dictGet rec "Error_Procesamiento" = .str "PDF no encontrado" ∧
        dictGet rec "Año" = .str a ∧ dictGet rec "Ciudad" = .str c ∧
        dictGet rec "ID_Tienda" = .str i ∧ dictGet rec "Nombre_Tienda" = .str n ∧
        dictGet rec "Latitud_KMZ" = optNum lat ∧ dictGet rec "Longitud_KMZ" = optNum lon ∧
        dictGet rec "Archivo_KMZ" = optStr k ∧ dictGet rec "Archivo_PDF" = optStr p) ∧
      (∀ (iaData rec : PyDict),
        construirResultado a c i n lat lon iaData k p = some rec →
        dictGet rec "Año" = .str a ∧ dictGet rec "Ciudad" = .str c ∧
        dictGet rec "ID_Tienda" = .str i ∧ dictGet rec "Nombre_Tienda" = .str n ∧
        dictGet rec "Latitud_KMZ" = optNum lat ∧ dictGet rec "Longitud_KMZ" = optNum lon ∧
        dictGet rec "Archivo_KMZ" = optStr k ∧ dictGet rec "Archivo_PDF" = optStr p) := by
  intro msg a c i n lat lon k p
  refine ⟨⟨_, rfl, ?_, rfl, rfl, rfl, rfl, rfl, rfl, rfl, rfl, rfl⟩,
    ⟨_, rfl, ?_, rfl, rfl, rfl, rfl, rfl, rfl, rfl, rfl, rfl⟩,
    fun iaData rec h => construirResultado_fields h⟩
  · intro key hk
    fin_cases hk <;> rfl
  · intro key hk
    fin_cases hk <;> rfl

/-- Witness for C10 at the concrete terminal-error message produced by
retry exhaustion. -/
theorem c10_error_atomicity_witness :
    (construirResultado "2023" "CUL" "42" "X" (some 19.25) (some (-99.5))
      (errorResult "Máximo de reintentos alcanzado") (some "a.kmz") (some "r.pdf")).isSome
        = true ∧
    dictGet ((construirResultado "2023" "CUL" "42" "X" (some 19.25) (some (-99.5))
        (errorResult "Máximo de reintentos alcanzado") (some "a.kmz") (some "r.pdf")).getD [])
      "Error_Procesamiento" = .str "Máximo de reintentos alcanzado" ∧
    dictGet ((construirResultado "2023" "CUL" "42" "X" (some 19.25) (some (-99.5))
        (errorResult "Máximo de reintentos alcanzado") (some "a.kmz") (some "r.pdf")).getD [])
      "Nombre_Obra_PDF" = JVal.null := by
  obtain ⟨⟨rec, hrec, hnull, herr, _⟩, _, _⟩ :=
    c10_error_atomicity "Máximo de reintentos alcanzado" "2023" "CUL" "42" "X"
      (some 19.25) (some (-99.5)) (some "a.kmz") (some "r.pdf")
  rw [hrec]
  exact ⟨rfl, herr, hnull "Nombre_Obra_PDF" (by decide)⟩

/-! ## C2 — checkpoint identity reconstruction -/

/-- C2 counterexample: a record carrying both source-file paths derives
its completed identity from the parent of its PDF (document) path `a/b`,
not from the parent of its KMZ (geodata) path `c/d` as the claim states
(the root here makes both relativizations fail, so raw parents are
kept). -/
theorem c2_checkpoint_identity_counterexample :
    checkpointIdentity ["zz", "info"]
      [("Archivo_KMZ", .str "c/d/g.kmz"), ("Archivo_PDF", .str "a/b/f.pdf")] = some "a/b" ∧
    checkpointIdentity ["zz", "info"]
      [("Archivo_KMZ", .str "c/d/g.kmz"), ("Archivo_PDF", .str "a/b/f.pdf")] ≠ some "c/d" :=
  ⟨rfl, by decide⟩

/-- C2 (amended): the completed identity of a persisted record is the
parent directory of its DOCUMENT (PDF) path when that value is truthy,
falling back to the geodata (KMZ) path otherwise, normalized relative to
the parent of the pipeline root and keeping the raw parent path when
relativization fails; a record with neither path contributes no identity;
and the startup reconstruction collects exactly these identities over the
loaded collection. -/
theorem c2_checkpoint_identity_amended :
    (∀ (rootSegs : List String) (r : PyDict) (s : String),
      dictGet r "Archivo_PDF" = .str s → s ≠ "" →
      checkpointIdentity rootSegs r =
        some ((relativeSegs? (splitSegs (pathParentStr s)) (parentSegs rootSegs)).elim
          (pathParentStr s) joinSegs)) ∧
    (∀ (rootSegs : List String) (r : PyDict) (s : String),
      pyTruthy (dictGet r "Archivo_PDF") = false →
      dictGet r "Archivo_KMZ" = .str s → s ≠ "" →
      checkpointIdentity rootSegs r =
        some ((relativeSegs? (splitSegs (pathParentStr s)) (parentSegs rootSegs)).elim
          (pathParentStr s) joinSegs)) ∧
    (∀ (rootSegs : List String) (r : PyDict),
      pyTruthy (dictGet r "Archivo_PDF") = false →
      pyTruthy (dictGet r "Archivo_KMZ") = false →
      checkpointIdentity rootSegs r = none) ∧
    (∀ (rootSegs : List String) (rs : List PyDict),
      reconstructPaths rootSegs rs = rs.filterMap (checkpointIdentity rootSegs)) := by
  refine ⟨?_, ?_, ?_, ?_⟩
  · intro rootSegs r s hpdf hs
    simp only [checkpointIdentity, recordDirStr, hpdf, pyTruthy]
    rw [if_pos (by simpa using hs)]
    dsimp only
    cases relativeSegs? (splitSegs (pathParentStr s)) (parentSegs rootSegs) <;> rfl
  · intro rootSegs r s hpdf hkmz hs
    simp only [checkpointIdentity, recordDirStr, hkmz]
    rw [if_neg (by simp [hpdf]), if_pos (by simp [pyTruthy, hs])]
    dsimp only
    cases relativeSegs? (splitSegs (pathParentStr s)) (parentSegs rootSegs) <;> rfl
  · intro rootSegs r hpdf hkmz
    simp [checkpointIdentity, recordDirStr, hpdf, hkmz]
  · intro rootSegs rs
    induction rs with
    | nil => rfl
    | cons r rest ih =>
      cases h : checkpointIdentity rootSegs r <;>
        simp [reconstructPaths, h, ih, List.filterMap_cons]

/-- Witness for C2 (amended) on a concrete record with only a PDF path
under the pipeline root. -/
theorem c2_checkpoint_identity_amended_witness :
    checkpointIdentity ["", "data", "info"]
      [("Archivo_PDF", .str "/data/info/2023/CUL/01) 5 X/r.pdf")] =
      some ((relativeSegs? (splitSegs (pathParentStr "/data/info/2023/CUL/01) 5 X/r.pdf"))
        (parentSegs ["", "data", "info"])).elim
          (pathParentStr "/data/info/2023/CUL/01) 5 X/r.pdf") joinSegs) :=
  c2_checkpoint_identity_amended.1 ["", "data", "info"]
    [("Archivo_PDF", .str "/data/info/2023/CUL/01) 5 X/r.pdf")]
    "/data/info/2023/CUL/01) 5 X/r.pdf" rfl (by decide)

/-! ## C1 — idempotent resume -/

/-- Splitting a separator-free stream returns a single piece. -/
theorem splitOnPred_no_sep {p : Char → Bool} :
    ∀ l : List Char, (∀ c ∈ l, p c = false) → splitOnPred p l = [l] := by
  intro l
  induction l with
  | nil => intro _; rfl
  | cons c r ih =>
    intro h
    have hc := h c (by simp)
    simp [splitOnPred, hc, ih (fun a ha => h a (by simp [ha]))]

/-- Splitting past a separator after a separator-free segment. -/
theorem splitOnPred_append_sep {p : Char → Bool} {sep : Char} (hsep : p sep = true) :
    ∀ seg rest : List Char, (∀ c ∈ seg, p c = false) →
      splitOnPred p (seg ++ sep :: rest) = seg :: splitOnPred p rest := by
  intro seg
  induction seg with
  | nil => intro rest _; simp [splitOnPred, hsep]
  | cons c r ih =>
    intro rest h
    have hc := h c (by simp)
    simp [splitOnPred, hc, ih rest (fun a ha => h a (by simp [ha]))]

/-- Unfolding `joinSlash` over at least two pieces. -/
theorem joinSlash_cons₂ (s : List Char) (t : List (List Char)) (h : t ≠ []) :
    joinSlash (s :: t) = s ++ '/' :: joinSlash t := by
  cases t with
  | nil => exact absurd rfl h
  | cons a r => rfl

/-- Path splitting inverts path joining on slash-free segments. -/
theorem splitSegs_joinSegs :
    ∀ l : List String, l ≠ [] → (∀ s ∈ l, '/' ∉ s.data) →
      splitSegs (joinSegs l) = l := by
  have hchar : ∀ pieces : List (List Char), pieces ≠ [] →
      (∀ piece ∈ pieces, ∀ c ∈ piece, (c = '/' : Bool) = false) →
      splitOnPred (· = '/') (joinSlash pieces) = pieces := by
    intro pieces
    induction pieces with
    | nil => intro h _; exact absurd rfl h
    | cons s t ih =>
      intro _ h
      cases t with
      | nil => exact splitOnPred_no_sep s (h s (by simp))
      | cons b r =>
        rw [joinSlash_cons₂ s (b :: r) (by simp)]
        rw [splitOnPred_append_sep (by simp) s _ (h s (by simp))]
        rw [ih (by simp) (fun piece hp c hc => h piece (by simp [hp]) c hc)]
  intro l hne hwf
  unfold splitSegs joinSegs
  have hdata : (String.mk (joinSlash (l.map String.data))).data = joinSlash (l.map String.data) := rfl
  rw [hdata]
  rw [hchar (l.map String.data) (by simpa using hne)
    (by
      intro piece hp c hc
      simp at hp
      obtain ⟨s, hs, rfl⟩ := hp
      have := hwf s hs
      simp
      intro hcq
      rw [hcq] at hc
      exact this hc)]
  rw [List.map_map]
  have : (String.mk ∘ String.data) = id := funext fun s => rfl
  rw [this, List.map_id]

/-- A joined path whose last segment is non-empty is non-empty. -/
theorem joinSegs_ne_empty (l : List String) (x : String) (hx : x ≠ "")
    (hwf : ∀ s ∈ l ++ [x], '/' ∉ s.data) : joinSegs (l ++ [x]) ≠ "" := by
  intro h
  have hrt := splitSegs_joinSegs (l ++ [x]) (by simp) hwf
  rw [h] at hrt
  have : splitSegs "" = [""] := rfl
  rw [this] at hrt
  have hxmem : x ∈ l ++ [x] := by simp
  rw [← hrt] at hxmem
  simp at hxmem
  exact hx hxmem

/-- Python `relative_to` on an exact prefix extension returns the extension. -/
theorem relativeSegs?_append (a b : List String) : relativeSegs? (a ++ b) a = some b := by
  unfold relativeSegs?
  have hpre : a <+: a ++ b := List.prefix_append a b
  have hb : a.isPrefixOf (a ++ b) = true := List.isPrefixOf_iff_prefix.mpr hpre
  rw [if_pos hb]
  simp

/-- Python `parent` drops exactly the member name appended to a non-empty
directory path. -/
theorem parentSegs_concat (l : List String) (x : String) (h : l ≠ []) :
    parentSegs (l ++ [x]) = l := by
  unfold parentSegs
  rw [List.dropLast_concat]
  cases l with
  | nil => exact absurd rfl h
  | cons a r => rfl

/-- The scanned store directory's segment path is non-empty and
slash-free. -/
theorem tiendaSegs_wf {rootSegs : List String} {t : TiendaDir}
    (hrootwf : ∀ s ∈ rootSegs, '/' ∉ s.data) (hwf : storeWF t) :
    tiendaSegs rootSegs t ≠ [] ∧ (∀ s ∈ tiendaSegs rootSegs t, '/' ∉ s.data) := by
  obtain ⟨h1, h2, h3, _, _, _⟩ := hwf
  refine ⟨by simp [tiendaSegs], ?_⟩
  intro s hs
  simp [tiendaSegs] at hs
  rcases hs with hs | hs | hs | hs
  · exact hrootwf s hs
  · subst hs; exact h1.2
  · subst hs; exact h2.2
  · subst hs; exact h3.2

/-- The driver's relative store path in explicit form: `relative_to` on
the store directory succeeds and `rel_path` joins its value. -/
theorem relPath_spec {rootSegs : List String} (t : TiendaDir)
    (hroot2 : 2 ≤ rootSegs.length) :
    ∃ X, relativeSegs? (tiendaSegs rootSegs t) (parentSegs rootSegs) = some X ∧
      relPathOfStore rootSegs t = joinSegs X := by
  have hne : rootSegs ≠ [] := by
    intro h; rw [h] at hroot2; simp at hroot2
  have hdl : rootSegs.dropLast ≠ [] := by
    intro h
    have h9 := List.length_dropLast rootSegs
    rw [h] at h9
    simp at h9
    omega
  have hparent : parentSegs rootSegs = rootSegs.dropLast := by
    unfold parentSegs
    cases hc : rootSegs.dropLast with
    | nil => exact absurd hc hdl
    | cons a r => rfl
  have hsplit : rootSegs.dropLast ++ (rootSegs.getLast hne :: [t.anio, t.ciudad, t.carpeta])
      = tiendaSegs rootSegs t := by
    unfold tiendaSegs
    rw [show rootSegs.dropLast ++ (rootSegs.getLast hne :: [t.anio, t.ciudad, t.carpeta])
        = (rootSegs.dropLast ++ [rootSegs.getLast hne]) ++ [t.anio, t.ciudad, t.carpeta] by simp]
    rw [List.dropLast_append_getLast hne]
  refine ⟨rootSegs.getLast hne :: [t.anio, t.ciudad, t.carpeta], ?_, ?_⟩
  · rw [hparent, ← hsplit]
    exact relativeSegs?_append _ _
  · unfold relPathOfStore
    rw [hparent, ← hsplit, relativeSegs?_append]
    rfl

/-- Core of the resume argument: the checkpoint identity recovered from a
record the driver builds for a well-formed store equals the driver's own
relative path for that store. -/
theorem record_identity {rootSegs : List String} {t : TiendaDir}
    {lat lon : Option ℚ} {ia : PyDict} {rec : PyDict}
    (hroot2 : 2 ≤ rootSegs.length) (hrootwf : ∀ s ∈ rootSegs, '/' ∉ s.data)
    (hwf : storeWF t)
    (hcon : construirResultado t.anio t.ciudad (parsearNombreTienda t.carpeta).1
      (parsearNombreTienda t.carpeta).2 lat lon ia
      (t.kmzName.map fun nm => joinSegs (tiendaSegs rootSegs t ++ [nm]))
      (t.pdfName.map fun nm => joinSegs (tiendaSegs rootSegs t ++ [nm])) = some rec) :
    checkpointIdentity rootSegs rec = some (relPathOfStore rootSegs t) := by
  obtain ⟨_, _, _, _, _, _, hkmzF, hpdfF⟩ := construirResultado_fields hcon
  obtain ⟨htne, htwf⟩ := tiendaSegs_wf hrootwf hwf
  obtain ⟨X, hrel, hrp⟩ := relPath_spec t hroot2
  obtain ⟨h1, h2, h3, hkwf, hpwf, hpresent⟩ := hwf
  have hmember : ∀ fn : String, fn ≠ "" → '/' ∉ fn.data →
      pathParentStr (joinSegs (tiendaSegs rootSegs t ++ [fn]))
        = joinSegs (tiendaSegs rootSegs t) ∧
      joinSegs (tiendaSegs rootSegs t ++ [fn]) ≠ "" := by
    intro fn hfn hfnwf
    have hallwf : ∀ s ∈ tiendaSegs rootSegs t ++ [fn], '/' ∉ s.data := by
      intro s hs
      simp at hs
      rcases hs with hs | hs
      · exact htwf s hs
      · subst hs; exact hfnwf
    constructor
    · unfold pathParentStr
      rw [splitSegs_joinSegs _ (by simp) hallwf, parentSegs_concat _ _ htne]
    · exact joinSegs_ne_empty _ _ hfn hallwf
  cases hpd : t.pdfName with
  | some fn =>
    rw [hpd] at hpdfF
    have hg := hpwf fn hpd
    obtain ⟨hparentEq, hne'⟩ := hmember fn hg.1 hg.2
    have hpdfF' : dictGet rec "Archivo_PDF"
        = JVal.str (joinSegs (tiendaSegs rootSegs t ++ [fn])) := hpdfF
    unfold checkpointIdentity recordDirStr
    rw [hpdfF']
    rw [if_pos (by simp [pyTruthy, hne'])]
    dsimp only
    rw [hparentEq, splitSegs_joinSegs _ htne htwf, hrel, hrp]
  | none =>
    cases hkm : t.kmzName with
    | none =>
      rw [hpd, hkm] at hpresent
      rcases hpresent with h | h <;> exact absurd rfl h
    | some fn =>
      rw [hpd] at hpdfF
      rw [hkm] at hkmzF
      have hg := hkwf fn hkm
      obtain ⟨hparentEq, hne'⟩ := hmember fn hg.1 hg.2
      have hpdfF' : dictGet rec "Archivo_PDF" = JVal.null := hpdfF
      have hkmzF' : dictGet rec "Archivo_KMZ"
          = JVal.str (joinSegs (tiendaSegs rootSegs t ++ [fn])) := hkmzF
      unfold checkpointIdentity recordDirStr
      rw [hpdfF', hkmzF']
      rw [if_neg (by simp [pyTruthy]), if_pos (by simp [pyTruthy, hne'])]
      dsimp only
      rw [hparentEq, splitSegs_joinSegs _ htne htwf, hrel, hrp]

/-- The startup reconstruction distributes over appended collections. -/
theorem reconstructPaths_append (rootSegs : List String) :
    ∀ l₁ l₂ : List PyDict,
      reconstructPaths rootSegs (l₁ ++ l₂) =
        reconstructPaths rootSegs l₁ ++ reconstructPaths rootSegs l₂ := by
  intro l₁ l₂
  induction l₁ with
  | nil => rfl
  | cons r rest ih =>
    have hcons : ∀ l : List PyDict, reconstructPaths rootSegs (r :: l) =
        match checkpointIdentity rootSegs r with
        | some p => p :: reconstructPaths rootSegs l
        | none => reconstructPaths rootSegs l := fun l => rfl
    show reconstructPaths rootSegs (r :: (rest ++ l₂)) = _
    rw [hcons, hcons]
    cases checkpointIdentity rootSegs r
    · exact ih
    · dsimp only
      rw [ih]
      rfl

/-- Case analysis of one driver iteration: the store is either skipped
(already-marked path, state untouched) or processed (a record is built
and appended together with its path). -/
theorem procesarStep_cases {rootSegs : List String}
    {co : TiendaDir → Option (ℚ × ℚ)} {ex : TiendaDir → PyDict}
    {st : RunState} {t : TiendaDir} {st' : RunState}
    (h : procesarStep rootSegs co ex st t = some st') :
    (relPathOfStore rootSegs t ∈ st.procesadasPaths ∧ st' = st) ∨
    (relPathOfStore rootSegs t ∉ st.procesadasPaths ∧
      ∃ (rec : PyDict) (err : List (String × String)),
        construirResultado t.anio t.ciudad (parsearNombreTienda t.carpeta).1
          (parsearNombreTienda t.carpeta).2
          ((match t.kmzName with | some _ => co t | none => none).map Prod.fst)
          ((match t.kmzName with | some _ => co t | none => none).map Prod.snd)
          (match t.pdfName with | some _ => ex t | none => pdfMissingDict)
          (t.kmzName.map fun nm => joinSegs (tiendaSegs rootSegs t ++ [nm]))
          (t.pdfName.map fun nm => joinSegs (tiendaSegs rootSegs t ++ [nm])) = some rec ∧
        st' = ⟨st.resultados ++ [rec],
          st.procesadasPaths ++ [relPathOfStore rootSegs t], err⟩) := by
  unfold procesarStep at h
  by_cases hmem : relPathOfStore rootSegs t ∈ st.procesadasPaths
  · rw [if_pos hmem] at h
    exact Or.inl ⟨hmem, (Option.some.inj h).symm⟩
  · rw [if_neg hmem] at h
    dsimp only at h
    cases hcon : construirResultado t.anio t.ciudad (parsearNombreTienda t.carpeta).1
        (parsearNombreTienda t.carpeta).2
        ((match t.kmzName with | some _ => co t | none => none).map Prod.fst)
        ((match t.kmzName with | some _ => co t | none => none).map Prod.snd)
        (match t.pdfName with | some _ => ex t | none => pdfMissingDict)
        (t.kmzName.map fun nm => joinSegs (tiendaSegs rootSegs t ++ [nm]))
        (t.pdfName.map fun nm => joinSegs (tiendaSegs rootSegs t ++ [nm])) with
    | none =>
      rw [hcon] at h
      exact absurd h (by simp)
    | some rec =>
      rw [hcon] at h
      dsimp only at h
      exact Or.inr ⟨hmem, rec, _, rfl, (Option.some.inj h).symm⟩

/-- A completed step keeps all previously marked paths and marks the
store's own path. -/
theorem procesarStep_paths {rootSegs : List String}
    {co : TiendaDir → Option (ℚ × ℚ)} {ex : TiendaDir → PyDict}
    {st : RunState} {t : TiendaDir} {st' : RunState}
    (h : procesarStep rootSegs co ex st t = some st') :
    (∀ x ∈ st.procesadasPaths, x ∈ st'.procesadasPaths) ∧
    relPathOfStore rootSegs t ∈ st'.procesadasPaths := by
  rcases procesarStep_cases h with ⟨hm, rfl⟩ | ⟨_, rec, err, _, rfl⟩
  · exact ⟨fun x hx => hx, hm⟩
  · exact ⟨fun x hx => by simp [hx], by simp⟩

/-- Marked paths only grow along the main loop. -/
theorem procesarCore_paths_mono {rootSegs : List String}
    {co : TiendaDir → Option (ℚ × ℚ)} {ex : TiendaDir → PyDict} :
    ∀ (stores : List TiendaDir) (st st' : RunState),
      procesarCore rootSegs co ex stores st = some st' →
      ∀ x ∈ st.procesadasPaths, x ∈ st'.procesadasPaths := by
  intro stores
  induction stores with
  | nil =>
    intro st st' h
    rw [(Option.some.inj h)]
    exact fun x hx => hx
  | cons t rest ih =>
    intro st st' h
    unfold procesarCore at h
    cases hstep : procesarStep rootSegs co ex st t with
    | none => rw [hstep] at h; exact absurd h (by simp)
    | some st₁ =>
      rw [hstep] at h
      intro x hx
      exact ih st₁ st' h x ((procesarStep_paths hstep).1 x hx)

/-- After a completed run every traversed store's relative path is
marked. -/
theorem procesarCore_mem_all {rootSegs : List String}
    {co : TiendaDir → Option (ℚ × ℚ)} {ex : TiendaDir → PyDict} :
    ∀ (stores : List TiendaDir) (st st' : RunState),
      procesarCore rootSegs co ex stores st = some st' →
      ∀ t ∈ stores, relPathOfStore rootSegs t ∈ st'.procesadasPaths := by
  intro stores
  induction stores with
  | nil => intro st st' _ t ht; simp at ht
  | cons u rest ih =>
    intro st st' h t ht
    unfold procesarCore at h
    cases hstep : procesarStep rootSegs co ex st u with
    | none => rw [hstep] at h; exact absurd h (by simp)
    | some st₁ =>
      rw [hstep] at h
      rcases List.mem_cons.mp ht with rfl | hrest
      · exact procesarCore_paths_mono rest st₁ st' h _ ((procesarStep_paths hstep).2)
      · exact ih st₁ st' h t hrest

/-- Invariant of the main loop over a well-formed tree: every marked path
is recoverable from the accumulated result collection via the checkpoint
reconstruction. -/
theorem procesarCore_invariant {rootSegs : List String}
    {co : TiendaDir → Option (ℚ × ℚ)} {ex : TiendaDir → PyDict}
    (hroot2 : 2 ≤ rootSegs.length) (hrootwf : ∀ s ∈ rootSegs, '/' ∉ s.data) :
    ∀ (stores : List TiendaDir) (st st' : RunState),
      (∀ t ∈ stores, storeWF t) →
      procesarCore rootSegs co ex stores st = some st' →
      (∀ x ∈ st.procesadasPaths, x ∈ reconstructPaths rootSegs st.resultados) →
      ∀ x ∈ st'.procesadasPaths, x ∈ reconstructPaths rootSegs st'.resultados := by
  intro stores
  induction stores with
  | nil =>
    intro st st' _ h hinv
    rw [← (Option.some.inj h)]
    exact hinv
  | cons t rest ih =>
    intro st st' hwf h hinv
    unfold procesarCore at h
    cases hstep : procesarStep rootSegs co ex st t with
    | none => rw [hstep] at h; exact absurd h (by simp)
    | some st₁ =>
      rw [hstep] at h
      have hwf_t := hwf t (by simp)
      have hwf_rest : ∀ u ∈ rest, storeWF u := fun u hu => hwf u (by simp [hu])
      rcases procesarStep_cases hstep with ⟨_, rfl⟩ | ⟨_, rec, err, hcon, rfl⟩
      · exact ih st₁ st' hwf_rest h hinv
      · refine ih _ st' hwf_rest h ?_
        intro x hx
        simp only [List.mem_append, List.mem_singleton] at hx
        rcases hx with hx | rfl
        · rw [reconstructPaths_append]
          exact List.mem_append.mpr (Or.inl (hinv x hx))
        · rw [reconstructPaths_append]
          refine List.mem_append.mpr (Or.inr ?_)
          have hid := record_identity hroot2 hrootwf hwf_t hcon
          unfold reconstructPaths
          rw [hid]
          simp

/-- When every traversed store is already marked, the run changes
nothing. -/
theorem procesarCore_skip_all {rootSegs : List String}
    {co : TiendaDir → Option (ℚ × ℚ)} {ex : TiendaDir → PyDict} :
    ∀ (stores : List TiendaDir) (st : RunState),
      (∀ t ∈ stores, relPathOfStore rootSegs t ∈ st.procesadasPaths) →
      procesarCore rootSegs co ex stores st = some st := by
  intro stores
  induction stores with
  | nil => intro st _; rfl
  | cons t rest ih =>
    intro st h
    unfold procesarCore
    have hstep : procesarStep rootSegs co ex st t = some st := by
      unfold procesarStep
      rw [if_pos (h t (by simp))]
    rw [hstep]
    exact ih st (fun u hu => h u (by simp [hu]))

/-- C1 counterexample: a tree whose only store folder holds neither a
geodata nor a document file.  The first run over the empty checkpoint
yields one record; a second run against that persisted output appends a
second record for the same store, because the record carries no source
path from which the checkpoint reconstruction could recover the store's
identity. -/
theorem c1_idempotent_resume_counterexample :
    (procesarRun c1Root c1Co c1Ex c1Stores []).map List.length = some 1 ∧
    (procesarRun c1Root c1Co c1Ex c1Stores
      ((procesarRun c1Root c1Co c1Ex c1Stores []).getD [])).map List.length = some 2 := by
  exact ⟨rfl, rfl⟩

/-- C1 (amended): over an input tree in which every store folder holds at
least one geodata or document file (with well-formed, separator-free
names, under a root path of at least two segments), a second pipeline run
against the same unmodified tree and the persisted output of a completed
first run appends no new record and returns the identical collection:
checkpoint reconstruction marks every first-run identity complete and the
driver skips them all. -/
theorem c1_idempotent_resume_amended :
    ∀ (rootSegs : List String) (co : TiendaDir → Option (ℚ × ℚ))
      (ex : TiendaDir → PyDict) (stores : List TiendaDir) (run1 : List PyDict),
      2 ≤ rootSegs.length → (∀ s ∈ rootSegs, '/' ∉ s.data) →
      (∀ t ∈ stores, storeWF t) →
      procesarRun rootSegs co ex stores [] = some run1 →
      procesarRun rootSegs co ex stores run1 = some run1 := by
  intro rootSegs co ex stores run1 hroot2 hrootwf hwf h1
  unfold procesarRun at h1 ⊢
  cases hcore : procesarCore rootSegs co ex stores ⟨[], reconstructPaths rootSegs [], []⟩ with
  | none => rw [hcore] at h1; exact absurd h1 (by simp)
  | some stF =>
    rw [hcore] at h1
    simp only [Option.map_some'] at h1
    have h1' : stF.resultados = run1 := Option.some.inj h1
    have hinv := procesarCore_invariant hroot2 hrootwf stores _ _ hwf hcore
      (by intro x hx; exact absurd hx (by simp [reconstructPaths]))
    have hmem := procesarCore_mem_all stores _ _ hcore
    have hskip : procesarCore rootSegs co ex stores
        ⟨run1, reconstructPaths rootSegs run1, []⟩ =
        some ⟨run1, reconstructPaths rootSegs run1, []⟩ := by
      apply procesarCore_skip_all
      intro t ht
      have h9 := hinv _ (hmem t ht)
      rw [h1'] at h9
      exact h9
    rw [hskip]
    rfl

/-- Witness for C1 (amended) on a concrete one-store tree holding both a
KMZ and a PDF member: the second run returns the first run's collection
unchanged. -/
theorem c1_idempotent_resume_amended_witness :
    procesarRun c1Root c1Co c1Ex c1GoodStores
      ((procesarRun c1Root c1Co c1Ex c1GoodStores []).getD []) =
      some ((procesarRun c1Root c1Co c1Ex c1GoodStores []).getD []) := by
  apply c1_idempotent_resume_amended c1Root c1Co c1Ex c1GoodStores _
    (by decide) (by decide)
  · intro t ht
    simp [c1GoodStores] at ht
    subst ht
    refine ⟨by decide, by decide, by decide, ?_, ?_, by decide⟩
    · intro nm hnm
      cases hnm
      decide
    · intro nm hnm
      cases hnm
      decide
  · rfl

end Kiosko
